import Mathlib

/-!
Shallow embedding of the SDP negotiation core of the `sfu` repository
(`src/server/session/mod.rs` and `src/server/session/description/mod.rs`),
together with the small data model it operates on.

Pure Rust functions become Lean functions; the interior mutability of
`Session.endpoints` (an `Rc<RefCell<HashMap<..>>>`) is embedded by explicit
state passing: a function that could mutate the session returns the updated
session value.  `HashMap`s become association lists with insert-replace
semantics, `Result<T>` becomes `Except String T` (errors in the source are
all `Error::Other(String)`), and `u64` counters wrap modulo `2 ^ 64` as the
release-mode Rust `+= 1` does.

A few leaf modules of the repository (`rtp_transceiver_direction.rs`,
`rtp_codec.rs`, `rtp_sender.rs`, the `endpoint` module, `types.rs`) are not
part of the provided sources; the definitions taken from them are modelled
from the specification and from the unit tests present in
`description/mod.rs`, and are marked `Modelled from the spec:` below.
External `sdp`-crate builders (`with_value_attribute`, `with_media`, ...)
are embedded with their documented append semantics.
-/

/-- Direction of an RTP transceiver.  Modelled from the spec: the variant
list of `RTCRtpTransceiverDirection` (rtp_transceiver_direction.rs is not in
the provided sources); variants per spec section 3 and the unit tests in
`description/mod.rs`. -/
inductive RTCRtpTransceiverDirection where
  | Unspecified
  | Sendrecv
  | Sendonly
  | Recvonly
  | Inactive
deriving DecidableEq, Repr, Inhabited

/-- Modelled from the spec: string-to-direction mapping ("sendrecv",
"sendonly", "recvonly", "inactive"; anything else is Unspecified), pinned by
`test_new_rtp_transceiver_direction` in `description/mod.rs`. -/
def RTCRtpTransceiverDirection.from_string (s : String) : RTCRtpTransceiverDirection :=
  if s = "sendrecv" then .Sendrecv
  else if s = "sendonly" then .Sendonly
  else if s = "recvonly" then .Recvonly
  else if s = "inactive" then .Inactive
  else .Unspecified

/-- Modelled from the spec: direction-to-string mapping, pinned by
`test_rtp_transceiver_direction_string` in `description/mod.rs`
(`UNSPECIFIED_STR` is "Unspecified"). -/
def RTCRtpTransceiverDirection.to_string : RTCRtpTransceiverDirection → String
  | .Unspecified => "Unspecified"
  | .Sendrecv => "sendrecv"
  | .Sendonly => "sendonly"
  | .Recvonly => "recvonly"
  | .Inactive => "inactive"

/-- Modelled from the spec: `has_send` (Sendrecv/Sendonly only), pinned by
`test_rtp_transceiver_has_send`. -/
def RTCRtpTransceiverDirection.has_send : RTCRtpTransceiverDirection → Bool
  | .Sendrecv => true
  | .Sendonly => true
  | _ => false

/-- Modelled from the spec: `has_recv` (Sendrecv/Recvonly only), pinned by
`test_rtp_transceiver_has_recv`. -/
def RTCRtpTransceiverDirection.has_recv : RTCRtpTransceiverDirection → Bool
  | .Sendrecv => true
  | .Recvonly => true
  | _ => false

/-- Modelled from the spec: `from_send_recv`, pinned by
`test_rtp_transceiver_from_send_recv`. -/
def RTCRtpTransceiverDirection.from_send_recv (send recv : Bool) : RTCRtpTransceiverDirection :=
  match send, recv with
  | true, true => .Sendrecv
  | true, false => .Sendonly
  | false, true => .Recvonly
  | false, false => .Inactive

/-- Modelled from the spec: `reverse` swaps Sendonly and Recvonly and fixes
everything else (spec section 4.1). -/
def RTCRtpTransceiverDirection.reverse : RTCRtpTransceiverDirection → RTCRtpTransceiverDirection
  | .Sendonly => .Recvonly
  | .Recvonly => .Sendonly
  | d => d

/-- Modelled from the spec: `intersect` produces the most restrictive
direction both sides support (spec section 4.1), pinned on nine pairs by
`test_rtp_transceiver_intersect`; a pair that grants no common capability
resolves to the safe default Inactive. -/
def RTCRtpTransceiverDirection.intersect
    (a b : RTCRtpTransceiverDirection) : RTCRtpTransceiverDirection :=
  RTCRtpTransceiverDirection.from_send_recv
    (a.has_send && b.has_send) (a.has_recv && b.has_recv)

/-- Modelled from the spec: the RTP codec kind of a media type string
("audio"/"video", anything else Unspecified; rtp_codec.rs is not in the
provided sources). -/
inductive RTPCodecType where
  | Unspecified
  | Audio
  | Video
deriving DecidableEq, Repr, Inhabited

/-- Modelled from the spec: media type string to codec kind. -/
def RTPCodecType.from_string (s : String) : RTPCodecType :=
  if s = "audio" then .Audio
  else if s = "video" then .Video
  else .Unspecified

/-- Modelled from the spec: codec kind rendered back into the media type
token used in `m=` lines. -/
def RTPCodecType.to_string : RTPCodecType → String
  | .Audio => "audio"
  | .Video => "video"
  | .Unspecified => "Unspecified"

/-- `RTCPFeedback` (rtp_transceiver.rs). -/
structure RTCPFeedback where
  typ : String
  parameter : String
deriving DecidableEq, Repr, Inhabited

/-- Modelled from the spec: codec capability record used by the section
builder (mime type, clock rate, channels, fmtp line, feedback list);
rtp_codec.rs is not in the provided sources, fields per the uses in
`add_transceiver_sdp`. -/
structure RTCRtpCodecCapability where
  mime_type : String
  clock_rate : Nat
  channels : Nat
  sdp_fmtp_line : String
  rtcp_feedback : List RTCPFeedback
deriving DecidableEq, Repr, Inhabited

/-- Modelled from the spec: a configured codec (capability plus payload
type). -/
structure RTCRtpCodecParameters where
  capability : RTCRtpCodecCapability
  payload_type : Nat
deriving DecidableEq, Repr, Inhabited

/-- Modelled from the spec: an outbound track exposing the identifiers used
in `msid`/`ssrc` attributes (track module not in the provided sources). -/
structure TrackLocal where
  id : String
  stream_id : String
deriving DecidableEq, Repr, Inhabited

/-- Modelled from the spec: the sender half of a transceiver
(rtp_sender.rs is not in the provided sources), fields per the uses in
`add_transceiver_sdp`: optional outbound track, ssrc, the one-way-latch
`initial_track_id`, and the associated media stream ids. -/
structure RTCRtpSender where
  track : Option TrackLocal
  ssrc : Nat
  initial_track_id : Option String
  associated_media_stream_ids : List String
deriving DecidableEq, Repr, Inhabited

/-- Modelled from the spec: the receiver half of a transceiver (only its
existence matters to the claims). -/
structure RTCRtpReceiver where
  kind : RTPCodecType
deriving DecidableEq, Repr, Inhabited

/-- `RTCRtpTransceiver` (rtp_transceiver.rs): sender+receiver sharing a mid,
a configured direction, the peer-negotiated current direction, configured
codecs, a stopped flag and a media kind. -/
structure RTCRtpTransceiver where
  mid : String
  sender : RTCRtpSender
  receiver : RTCRtpReceiver
  direction : RTCRtpTransceiverDirection
  current_direction : RTCRtpTransceiverDirection
  codecs : List RTCRtpCodecParameters
  stopped : Bool
  kind : RTPCodecType
deriving DecidableEq, Repr, Inhabited

/-- Socket address as used for candidate embedding (`SocketAddr`): an IP
rendered as text plus a port. -/
structure SocketAddr where
  ip : String
  port : Nat
deriving DecidableEq, Repr, Inhabited

/-- A network path: local address, peer address, protocol.  Modelled from
the spec: the four-tuple derived from a `TransportContext` (endpoint module
not in the provided sources). -/
structure FourTuple where
  local_addr : SocketAddr
  peer_addr : SocketAddr
  protocol : String
deriving DecidableEq, Repr, Inhabited

/-- Modelled from the spec: a Candidate carries the EndpointId derived from
the remote ICE username fragment (candidate module not in the provided
sources; only `endpoint_id()` is used by `Session::add_endpoint`). -/
structure Candidate where
  endpoint_id : String
deriving DecidableEq, Repr, Inhabited

/-- `Transport` : one network path for an Endpoint, owning the candidate
that produced it.  Modelled from the spec: transport module not in the
provided sources; the non-owning back-reference to the Endpoint is not
represented (it never extends a lifetime and is unobservable here). -/
structure Transport where
  four_tuple : FourTuple
  candidate : Candidate
deriving DecidableEq, Repr, Inhabited

/-- `Endpoint` : one remote peer owning a map from four-tuple to Transport.
Modelled from the spec: endpoint module not in the provided sources; the
map is embedded as an association list. -/
structure Endpoint where
  endpoint_id : String
  transports : List (FourTuple × Transport)
deriving DecidableEq, Repr, Inhabited

/-- Modelled from the spec: `Endpoint::get_transport`, lookup by
four-tuple. -/
def Endpoint.get_transport (e : Endpoint) (ft : FourTuple) : Option Transport :=
  (e.transports.find? (fun p => p.1 = ft)).map (·.2)

/-- Modelled from the spec: `Endpoint::add_transport`, registering a
transport under its four-tuple. -/
def Endpoint.add_transport (e : Endpoint) (t : Transport) : Endpoint :=
  { e with transports := e.transports ++ [(t.four_tuple, t)] }

/-- `RTCDtlsFingerprint` (certificate module): algorithm plus value. -/
structure RTCDtlsFingerprint where
  algorithm : String
  value : String
deriving DecidableEq, Repr, Inhabited

/-- `RTCCertificate`, exposing its DTLS fingerprints.  Modelled from the
spec: certificate module not in the provided sources; only
`get_fingerprints` is used by `generate_matched_sdp`. -/
structure RTCCertificate where
  fingerprints : List RTCDtlsFingerprint
deriving DecidableEq, Repr, Inhabited

/-- Modelled from the spec: `RTCCertificate::get_fingerprints`. -/
def RTCCertificate.get_fingerprints (c : RTCCertificate) : List RTCDtlsFingerprint :=
  c.fingerprints

/-- `RTCIceParameters` (candidate module): local ICE credentials. -/
structure RTCIceParameters where
  username_fragment : String
  password : String
deriving DecidableEq, Repr, Inhabited

/-- `ConnectionRole` of the external `sdp` crate (the DTLS role advertised
in the `setup` attribute). -/
inductive ConnectionRole where
  | Active
  | Passive
  | Actpass
  | Holdconn
deriving DecidableEq, Repr, Inhabited

/-- Wire form of a `ConnectionRole` (external `sdp` crate `Display`). -/
def ConnectionRole.to_string : ConnectionRole → String
  | .Active => "active"
  | .Passive => "passive"
  | .Actpass => "actpass"
  | .Holdconn => "holdconn"

/-- `Session` (server/session/mod.rs): stable id, local address for
candidate generation, certificate list, and the EndpointId-to-Endpoint map
(embedded as an association list; the `RefCell` is embedded by explicit
state passing). -/
structure Session where
  session_id : Nat
  local_addr : SocketAddr
  certificates : List RTCCertificate
  endpoints : List (String × Endpoint)
deriving DecidableEq, Repr, Inhabited

/-- `Session::get_endpoint` (server/session/mod.rs line 86). -/
def Session.get_endpoint (s : Session) (endpoint_id : String) : Option Endpoint :=
  (s.endpoints.find? (fun p => p.1 = endpoint_id)).map (·.2)

/-- `Session::add_endpoint` (server/session/mod.rs lines 54-84), embedded
with explicit state passing: the returned `Session` is the session as left
behind by the call (mutations through the shared `Rc<Endpoint>` handles are
reflected in the session's endpoint map).  Note that the source's
else-branch creates the new Endpoint and Transport but never inserts the
Endpoint into `self.endpoints`; the embedding mirrors that faithfully. -/
def Session.add_endpoint (s : Session) (candidate : Candidate)
    (four_tuple : FourTuple) : Bool × Session × Endpoint × Transport :=
  let endpoint_id := candidate.endpoint_id
  match s.get_endpoint endpoint_id with
  | some endpoint =>
    match endpoint.get_transport four_tuple with
    | some transport => (true, s, endpoint, transport)
    | none =>
      let transport : Transport := { four_tuple := four_tuple, candidate := candidate }
      let endpoint := endpoint.add_transport transport
      let s := { s with
        endpoints := s.endpoints.map
          (fun p => if p.1 = endpoint_id then (p.1, endpoint) else p) }
      (true, s, endpoint, transport)
  | none =>
    let endpoint : Endpoint := { endpoint_id := endpoint_id, transports := [] }
    let transport : Transport := { four_tuple := four_tuple, candidate := candidate }
    let endpoint := endpoint.add_transport transport
    (false, s, endpoint, transport)

/-- An SDP attribute of the external `sdp` crate: a key and an optional
value (`a=key` or `a=key:value`). -/
structure Attribute where
  key : String
  value : Option String
deriving DecidableEq, Repr, Inhabited

/-- `RangedPort` of the external `sdp` crate. -/
structure RangedPort where
  value : Nat
  range : Option Nat
deriving DecidableEq, Repr, Inhabited

/-- `Address` of the external `sdp` crate. -/
structure Address where
  address : String
  ttl : Option Nat
  range : Option Nat
deriving DecidableEq, Repr, Inhabited

/-- `ConnectionInformation` of the external `sdp` crate (`c=` line). -/
structure ConnectionInformation where
  network_type : String
  address_type : String
  address : Option Address
deriving DecidableEq, Repr, Inhabited

/-- `MediaName` of the external `sdp` crate (`m=` line). -/
structure MediaName where
  media : String
  port : RangedPort
  protos : List String
  formats : List String
deriving DecidableEq, Repr, Inhabited

/-- `MediaDescription` of the external `sdp` crate.  `bandwidth` and
`encryption_key` are carried for shape only (always empty here). -/
structure MediaDescription where
  media_name : MediaName
  media_title : Option String
  connection_information : Option ConnectionInformation
  bandwidth : List String
  encryption_key : Option String
  attributes : List Attribute
deriving DecidableEq, Repr, Inhabited

/-- `Origin` of the external `sdp` crate, restricted to the two fields the
core reads and writes (`o=` line session id and session version, both
`u64`). -/
structure Origin where
  session_id : Nat
  session_version : Nat
deriving DecidableEq, Repr, Inhabited

/-- `Origin::default()`: both counters zero. -/
def Origin.default : Origin := { session_id := 0, session_version := 0 }

/-- `SessionDescription` of the external `sdp` crate, restricted to the
parts the core manipulates: origin, session-level attributes, media
descriptions. -/
structure SessionDescription where
  origin : Origin
  attributes : List Attribute
  media_descriptions : List MediaDescription
deriving DecidableEq, Repr, Inhabited

/-- `sdp` crate `MediaDescription::with_property_attribute`: append a
valueless attribute. -/
def MediaDescription.with_property_attribute (m : MediaDescription) (key : String) :
    MediaDescription :=
  { m with attributes := m.attributes ++ [{ key := key, value := none }] }

/-- `sdp` crate `MediaDescription::with_value_attribute`: append a keyed
attribute. -/
def MediaDescription.with_value_attribute (m : MediaDescription) (key value : String) :
    MediaDescription :=
  { m with attributes := m.attributes ++ [{ key := key, value := some value }] }

/-- `sdp` crate `MediaDescription::with_ice_credentials`: `ice-ufrag` and
`ice-pwd` attributes. -/
def MediaDescription.with_ice_credentials (m : MediaDescription)
    (username_fragment password : String) : MediaDescription :=
  (m.with_value_attribute "ice-ufrag" username_fragment).with_value_attribute
    "ice-pwd" password

/-- `sdp` crate `MediaDescription::with_fingerprint`. -/
def MediaDescription.with_fingerprint (m : MediaDescription) (algorithm value : String) :
    MediaDescription :=
  m.with_value_attribute "fingerprint" (algorithm ++ " " ++ value)

/-- `sdp` crate `MediaDescription::with_codec`: push the payload type to
the format list, emit an `rtpmap` attribute (with the channel count when
positive) and an `fmtp` attribute when the fmtp line is non-empty. -/
def MediaDescription.with_codec (m : MediaDescription) (payload_type : Nat)
    (name : String) (clockrate : Nat) (channels : Nat) (fmtp : String) :
    MediaDescription :=
  let m := { m with media_name :=
    { m.media_name with formats := m.media_name.formats ++ [toString payload_type] } }
  let rtpmap := toString payload_type ++ " " ++ name ++ "/" ++ toString clockrate
  let rtpmap := if channels > 0 then rtpmap ++ "/" ++ toString channels else rtpmap
  let m := m.with_value_attribute "rtpmap" rtpmap
  if fmtp ≠ "" then
    m.with_value_attribute "fmtp" (toString payload_type ++ " " ++ fmtp)
  else m

/-- `sdp` crate `MediaDescription::with_media_source`: the four `ssrc`
property attributes (cname, msid, mslabel, label). -/
def MediaDescription.with_media_source (m : MediaDescription) (ssrc : Nat)
    (cname stream_label label : String) : MediaDescription :=
  ((((m.with_property_attribute
      ("ssrc:" ++ toString ssrc ++ " cname:" ++ cname)).with_property_attribute
      ("ssrc:" ++ toString ssrc ++ " msid:" ++ stream_label ++ " " ++ label)).with_property_attribute
      ("ssrc:" ++ toString ssrc ++ " mslabel:" ++ stream_label)).with_property_attribute
      ("ssrc:" ++ toString ssrc ++ " label:" ++ label))

/-- `sdp` crate `MediaDescription::new_jsep_media_description`: fresh media
block with the JSEP default port 9, the `UDP/TLS/RTP/SAVPF` protocol stack
and an `IN IP4 0.0.0.0` connection-information block. -/
def MediaDescription.new_jsep_media_description (media : String) : MediaDescription :=
  { media_name :=
      { media := media
        port := { value := 9, range := none }
        protos := ["UDP", "TLS", "RTP", "SAVPF"]
        formats := [] }
    media_title := none
    connection_information := some
      { network_type := "IN"
        address_type := "IP4"
        address := some { address := "0.0.0.0", ttl := none, range := none } }
    bandwidth := []
    encryption_key := none
    attributes := [] }

/-- `sdp` crate `SessionDescription::with_media`: append a media
description. -/
def SessionDescription.with_media (d : SessionDescription) (m : MediaDescription) :
    SessionDescription :=
  { d with media_descriptions := d.media_descriptions ++ [m] }

/-- `sdp` crate `SessionDescription::with_property_attribute`. -/
def SessionDescription.with_property_attribute (d : SessionDescription) (key : String) :
    SessionDescription :=
  { d with attributes := d.attributes ++ [{ key := key, value := none }] }

/-- `sdp` crate `SessionDescription::with_value_attribute`. -/
def SessionDescription.with_value_attribute (d : SessionDescription) (key value : String) :
    SessionDescription :=
  { d with attributes := d.attributes ++ [{ key := key, value := some value }] }

/-- `sdp` crate `SessionDescription::with_fingerprint` (session-level). -/
def SessionDescription.with_fingerprint (d : SessionDescription) (algorithm value : String) :
    SessionDescription :=
  d.with_value_attribute "fingerprint" (algorithm ++ " " ++ value)

/-- `sdp` crate `SessionDescription::new_jsep_session_description`: fresh
description whose origin carries crate-generated random identifiers; the
randomness is embedded as an explicit `seed` parameter. -/
def SessionDescription.new_jsep_session_description (seed : Origin) : SessionDescription :=
  { origin := seed, attributes := [], media_descriptions := [] }

/-- `RTCSdpType` (sdp_type.rs). -/
inductive RTCSdpType where
  | Unspecified
  | Offer
  | Pranswer
  | Answer
  | Rollback
deriving DecidableEq, Repr, Inhabited

/-- `RTCSessionDescription` (description/mod.rs lines 34-44): SDP type, raw
text, and the lazily cached parse. -/
structure RTCSessionDescription where
  sdp_type : RTCSdpType
  sdp : String
  parsed : Option SessionDescription
deriving DecidableEq, Repr, Inhabited

/-- `get_mid_value` (description/mod.rs lines 104-111): value of the first
`mid` attribute; a valueless `mid` attribute yields none exactly like a
missing one. -/
def get_mid_value (media : MediaDescription) : Option String :=
  match media.attributes.find? (fun attr => attr.key = "mid") with
  | some attr => attr.value
  | none => none

/-- `get_peer_direction` (description/mod.rs lines 113-121): first
attribute whose key parses to a direction; Unspecified when none does. -/
def get_peer_direction (media : MediaDescription) : RTCRtpTransceiverDirection :=
  match media.attributes.find?
      (fun a => RTCRtpTransceiverDirection.from_string a.key ≠ .Unspecified) with
  | some a => RTCRtpTransceiverDirection.from_string a.key
  | none => .Unspecified

/-- Insert-replace on an association list, embedding `HashMap::insert`. -/
def assocInsert (l : List (String × String)) (k v : String) : List (String × String) :=
  if l.any (fun p => p.1 = k) then
    l.map (fun p => if p.1 = k then (k, v) else p)
  else l ++ [(k, v)]

/-- `get_rids` (description/mod.rs lines 123-134): map from the first
space-separated token of each valued `rid` attribute to the raw attribute
value. -/
def get_rids (media : MediaDescription) : List (String × String) :=
  media.attributes.foldl
    (fun rids attr =>
      if attr.key = "rid" then
        match attr.value with
        | some value => assocInsert rids ((value.splitOn " ").headD "") value
        | none => rids
      else rids)
    []

/-- `MediaSection` (description/mod.rs lines 136-143). -/
structure MediaSection where
  id : String
  transceiver : Option RTCRtpTransceiver
  data : Bool
  rid_map : List (String × String)
  offered_direction : Option RTCRtpTransceiverDirection
deriving DecidableEq, Repr

/-- `MediaSection::default()`. -/
def MediaSection.default : MediaSection :=
  { id := "", transceiver := none, data := false, rid_map := [], offered_direction := none }

instance : Inhabited MediaSection := ⟨MediaSection.default⟩

/-- `RTCIceGatheringState` (description/mod.rs lines 146-163). -/
inductive RTCIceGatheringState where
  | Unspecified
  | New
  | Gathering
  | Complete
deriving DecidableEq, Repr, Inhabited

/-- Candidate attribute value marshaled by
`add_candidate_to_media_descriptions` (description/mod.rs line 172). -/
def marshalCandidate (c : SocketAddr) (component : Nat) : String :=
  "1 " ++ toString component ++ " UDP 1 " ++ c.ip ++ " " ++ toString c.port ++ " typ host"

/-- Inner closure `append_candidate_if_new` of
`add_candidate_to_media_descriptions` (description/mod.rs lines 170-182):
append a `candidate` attribute unless one with the identical value is
already present. -/
def append_candidate_if_new (c : SocketAddr) (component : Nat) (m : MediaDescription) :
    MediaDescription :=
  let marshaled := marshalCandidate c component
  if m.attributes.any (fun a => a.value = some marshaled) then m
  else m.with_value_attribute "candidate" marshaled

/-- `add_candidate_to_media_descriptions` (description/mod.rs lines
165-197).  The Rust signature returns `Result` but every path is `Ok`, so
the embedding returns the media description directly. -/
def add_candidate_to_media_descriptions (candidate : SocketAddr) (m : MediaDescription)
    (ice_gathering_state : RTCIceGatheringState) : MediaDescription :=
  let m := append_candidate_if_new candidate 1 m
  let m := append_candidate_if_new candidate 2 m
  if ice_gathering_state ≠ .Complete then m
  else if m.attributes.any (fun a => a.key = "end-of-candidates") then m
  else m.with_property_attribute "end-of-candidates"

/-- Fuel-driven worker for `trim_start_matches`. -/
def trimStartMatchesAux (p : String) : Nat → String → String
  | 0, s => s
  | n + 1, s =>
    if p ≠ "" && p.isPrefixOf s then trimStartMatchesAux p n (s.drop p.length) else s

/-- Rust `str::trim_start_matches`: repeatedly remove the pattern from the
front of the string while it is a prefix. -/
def String.trim_start_matches (s p : String) : String :=
  trimStartMatchesAux p s.length s

/-- `AddDataMediaSectionParams` (description/mod.rs lines 199-205). -/
structure AddDataMediaSectionParams where
  should_add_candidates : Bool
  mid_value : String
  ice_params : RTCIceParameters
  dtls_role : ConnectionRole
  ice_gathering_state : RTCIceGatheringState
deriving Repr

/-- Fixed leading structure and attributes of the data-channel media block
(description/mod.rs lines 213-248): `application`, port 9, `UDP/DTLS/SCTP`,
`webrtc-datachannel`, connection information, setup, mid, sendrecv,
placeholder sctp-port and max-message-size, ICE credentials. -/
def dataBaseMedia (mid_value : String) (dtls_role : ConnectionRole)
    (ice_params : RTCIceParameters) : MediaDescription :=
  let media : MediaDescription :=
    { media_name :=
        { media := "application"
          port := { value := 9, range := none }
          protos := ["UDP", "DTLS", "SCTP"]
          formats := ["webrtc-datachannel"] }
      media_title := none
      connection_information := some
        { network_type := "IN"
          address_type := "IP4"
          address := some { address := "0.0.0.0", ttl := none, range := none } }
      bandwidth := []
      encryption_key := none
      attributes := [] }
  let media := media.with_value_attribute "setup" dtls_role.to_string
  let media := media.with_value_attribute "mid" mid_value
  let media := media.with_property_attribute RTCRtpTransceiverDirection.Sendrecv.to_string
  let media := media.with_value_attribute "sctp-port" "5000"
  let media := media.with_value_attribute "max-message-size" "262144"
  media.with_ice_credentials ice_params.username_fragment ice_params.password

/-- The fully built data-channel media block (description/mod.rs lines
213-256): fixed structure, fingerprints, candidates only when
requested. -/
def dataSectionMedia (dtls_fingerprints : List RTCDtlsFingerprint)
    (candidate : SocketAddr) (params : AddDataMediaSectionParams) : MediaDescription :=
  let media := dataBaseMedia params.mid_value params.dtls_role params.ice_params
  let media := dtls_fingerprints.foldl
    (fun media f => media.with_fingerprint f.algorithm f.value.toUpper) media
  if params.should_add_candidates then
    add_candidate_to_media_descriptions candidate media params.ice_gathering_state
  else media

/-- `add_data_media_section` (description/mod.rs lines 207-259).  The Rust
signature returns `Result` but every path is `Ok`. -/
def add_data_media_section (d : SessionDescription)
    (dtls_fingerprints : List RTCDtlsFingerprint) (candidate : SocketAddr)
    (params : AddDataMediaSectionParams) : SessionDescription :=
  d.with_media (dataSectionMedia dtls_fingerprints candidate params)

/-- `AddTransceiverSdpParams` (description/mod.rs lines 261-267). -/
structure AddTransceiverSdpParams where
  should_add_candidates : Bool
  mid_value : String
  dtls_role : ConnectionRole
  ice_gathering_state : RTCIceGatheringState
  offered_direction : Option RTCRtpTransceiverDirection
deriving Repr

/-- Rejected media block built by the empty-codec branch of
`add_transceiver_sdp` (description/mod.rs lines 332-364): same media kind,
port 0, `UDP/TLS/RTP/SAVPF`, single format "0", and a
connection-information block. -/
def rejectedMediaDescription (kind : RTPCodecType) : MediaDescription :=
  { media_name :=
      { media := kind.to_string
        port := { value := 0, range := none }
        protos := ["UDP", "TLS", "RTP", "SAVPF"]
        formats := ["0"] }
    media_title := none
    connection_information := some
      { network_type := "IN"
        address_type := "IP4"
        address := some { address := "0.0.0.0", ttl := none, range := none } }
    bandwidth := []
    encryption_key := none
    attributes := [] }

/-- Codec loop of `add_transceiver_sdp` (description/mod.rs lines 299-324):
one codec line per codec with the `audio/` and `video/` mime prefixes
stripped, followed by one `rtcp-fb` attribute per declared feedback
mechanism. -/
def withTransceiverCodecs (media : MediaDescription)
    (codecs : List RTCRtpCodecParameters) : MediaDescription :=
  codecs.foldl
    (fun media codec =>
      let name := (codec.capability.mime_type.trim_start_matches
        "audio/").trim_start_matches "video/"
      let media := media.with_codec codec.payload_type name
        codec.capability.clock_rate codec.capability.channels
        codec.capability.sdp_fmtp_line
      codec.capability.rtcp_feedback.foldl
        (fun media feedback => media.with_value_attribute "rtcp-fb"
          (toString codec.payload_type ++ " " ++ feedback.typ ++ " " ++ feedback.parameter))
        media)
    media

/-- `msid` blocks of `add_transceiver_sdp` (description/mod.rs lines
393-429): the `ssrc` source attributes plus the initial-send `msid` lines
when no initial track id was recorded, followed by the recorded-id `msid`
lines when one was.  The source line that would record the initial track id
(`sender.initial_track_id = Some(track.id)`) is commented out as a TODO, so
the sender is never updated; the embedding mirrors that by not returning a
sender. -/
def withSenderMsid (media : MediaDescription) (sender : RTCRtpSender) : MediaDescription :=
  let media :=
    match sender.track with
    | some track =>
      let media := media.with_media_source sender.ssrc track.stream_id
        track.stream_id track.id
      if sender.initial_track_id.isNone then
        sender.associated_media_stream_ids.foldl
          (fun media stream_id =>
            media.with_property_attribute ("msid:" ++ stream_id ++ " " ++ track.id))
          media
      else media
    | none => media
  match sender.initial_track_id with
  | some track_id =>
    sender.associated_media_stream_ids.foldl
      (fun media stream_id =>
        media.with_property_attribute ("msid:" ++ stream_id ++ " " ++ track_id))
      media
  | none => media

/-- Direction resolution of `add_transceiver_sdp` (description/mod.rs lines
431-468). -/
def resolveDirection (offered_direction : Option RTCRtpTransceiverDirection)
    (transceiver_direction : RTCRtpTransceiverDirection) : RTCRtpTransceiverDirection :=
  match offered_direction with
  | some offered =>
    match offered with
    | .Sendonly | .Recvonly => offered.reverse.intersect transceiver_direction
    | .Sendrecv | .Unspecified => transceiver_direction
    | .Inactive => .Inactive
  | none => transceiver_direction

/-- Simulcast block of `add_transceiver_sdp` (description/mod.rs lines
378-391): one `rid ... recv` attribute per rid key and a `simulcast`
attribute joining all keys, when the rid map is non-empty. -/
def withRidAttributes (media : MediaDescription)
    (rid_map : List (String × String)) : MediaDescription :=
  if !rid_map.isEmpty then
    let keys := rid_map.map (·.1)
    let media := keys.foldl
      (fun media rid => media.with_value_attribute "rid" (rid ++ " recv")) media
    media.with_value_attribute "simulcast" ("recv " ++ String.intercalate ";" keys)
  else media

/-- Common leading attributes of a transceiver-backed section
(description/mod.rs lines 289-297): fresh JSEP media block, setup, mid, ICE
credentials, rtcp-mux, rtcp-rsize. -/
def transceiverBaseMedia (kind_s setup_v mid_v uf pw : String) : MediaDescription :=
  (((((MediaDescription.new_jsep_media_description
    kind_s).with_value_attribute "setup" setup_v).with_value_attribute "mid"
    mid_v).with_ice_credentials uf pw).with_property_attribute
    "rtcp-mux").with_property_attribute "rtcp-rsize"

/-- The media block of the non-empty-codec path up to (excluding) the
direction attribute: common attributes, codec lines, simulcast rids, msid
source attributes. -/
def transceiverPreMedia (ice_params : RTCIceParameters)
    (media_section : MediaSection) (t : RTCRtpTransceiver)
    (params : AddTransceiverSdpParams) : MediaDescription :=
  withSenderMsid
    (withRidAttributes
      (withTransceiverCodecs
        (transceiverBaseMedia t.kind.to_string params.dtls_role.to_string
          params.mid_value ice_params.username_fragment ice_params.password)
        t.codecs)
      media_section.rid_map)
    t.sender

/-- The fully built media block of the non-empty-codec path of
`add_transceiver_sdp` (description/mod.rs lines 289-481): common section
attributes, codec lines, simulcast rids, msid source attributes, resolved
direction, fingerprints, and candidates when this is the designated first
section. -/
def transceiverSectionMedia (dtls_fingerprints : List RTCDtlsFingerprint)
    (ice_params : RTCIceParameters) (candidate : SocketAddr)
    (media_section : MediaSection) (t : RTCRtpTransceiver)
    (params : AddTransceiverSdpParams) : MediaDescription :=
  let media := transceiverPreMedia ice_params media_section t params
  let direction := resolveDirection params.offered_direction t.direction
  let media := media.with_property_attribute direction.to_string
  let media := dtls_fingerprints.foldl
    (fun media f => media.with_fingerprint f.algorithm f.value.toUpper) media
  if params.should_add_candidates then
    add_candidate_to_media_descriptions candidate media params.ice_gathering_state
  else media

/-- `add_transceiver_sdp` (description/mod.rs lines 269-483).  The header
extension loop (lines 368-376) iterates `RTCRtpParameters::default()`,
whose extension list is empty in the source (the media-engine lookup is a
TODO), so it contributes nothing and the `Url::parse` error path is
unreachable; the embedding omits the vacuous loop.  In the empty-codec
branch the source's partially built section attributes are discarded
unused, so the branch is taken before building them here. -/
def add_transceiver_sdp (d : SessionDescription)
    (dtls_fingerprints : List RTCDtlsFingerprint) (ice_params : RTCIceParameters)
    (candidate : SocketAddr) (media_section : MediaSection)
    (params : AddTransceiverSdpParams) : Except String (SessionDescription × Bool) :=
  match media_section.transceiver with
  | none => .error "ErrSDPZeroTransceivers"
  | some t =>
    if t.codecs.isEmpty then
      if t.sender.track.isSome then .error "ErrSenderWithNoCodecs"
      else .ok (d.with_media (rejectedMediaDescription t.kind), false)
    else
      .ok (d.with_media
        (transceiverSectionMedia dtls_fingerprints ice_params candidate
          media_section t params), true)

/-- Per-section loop of `populate_sdp` (description/mod.rs lines 508-550):
threads the description, the accumulating BUNDLE value and count, and the
section index (the candidate flag is the `i == 0` test on that index). -/
def populateLoop (media_dtls_fingerprints : List RTCDtlsFingerprint)
    (candidate : SocketAddr) (ice_params : RTCIceParameters)
    (connection_role : ConnectionRole) :
    List MediaSection → SessionDescription → String → Nat → Nat →
      Except String (SessionDescription × String × Nat)
  | [], d, bundle_value, _, bundle_count => .ok (d, bundle_value, bundle_count)
  | m :: rest, d, bundle_value, i, bundle_count =>
    if m.data ∧ m.transceiver.isSome then
      .error "ErrSDPMediaSectionMediaDataChanInvalid"
    else
      let should_add_candidates := i = 0
      if m.data then
        let d := add_data_media_section d media_dtls_fingerprints candidate
          { should_add_candidates := should_add_candidates
            mid_value := m.id
            ice_params := ice_params
            dtls_role := connection_role
            ice_gathering_state := .Complete }
        populateLoop media_dtls_fingerprints candidate ice_params connection_role
          rest d (bundle_value ++ " " ++ m.id) (i + 1) (bundle_count + 1)
      else
        match add_transceiver_sdp d media_dtls_fingerprints ice_params candidate m
          { should_add_candidates := should_add_candidates
            mid_value := m.id
            dtls_role := connection_role
            ice_gathering_state := .Complete
            offered_direction := m.offered_direction } with
        | .error e => .error e
        | .ok (d1, should_add_id) =>
          if should_add_id then
            populateLoop media_dtls_fingerprints candidate ice_params connection_role
              rest d1 (bundle_value ++ " " ++ m.id) (i + 1) (bundle_count + 1)
          else
            populateLoop media_dtls_fingerprints candidate ice_params connection_role
              rest d1 bundle_value (i + 1) bundle_count

/-- `populate_sdp` (description/mod.rs lines 486-566). -/
def populate_sdp (d : SessionDescription)
    (dtls_fingerprints : List RTCDtlsFingerprint) (candidate : SocketAddr)
    (ice_params : RTCIceParameters) (connection_role : ConnectionRole)
    (media_sections : List MediaSection) (media_description_fingerprint : Bool) :
    Except String SessionDescription :=
  let media_dtls_fingerprints :=
    if media_description_fingerprint then dtls_fingerprints else []
  match populateLoop media_dtls_fingerprints candidate ice_params connection_role
      media_sections d "BUNDLE" 0 0 with
  | .error e => .error e
  | .ok (d, bundle_value, _) =>
    let d :=
      if !media_description_fingerprint then
        dtls_fingerprints.foldl
          (fun d f => d.with_fingerprint f.algorithm f.value.toUpper) d
      else d
    let d := d.with_property_attribute "ice-lite"
    .ok (d.with_value_attribute "group" bundle_value)

/-- `update_sdp_origin` (description/mod.rs lines 572-593): seed the stored
origin from the description when the stored version is zero; otherwise copy
the stored session id into the description, bump the stored version by one,
and bump the description's own version by one (both `u64`, wrapping). -/
def update_sdp_origin (origin : Origin) (d : SessionDescription) :
    Origin × SessionDescription :=
  if origin.session_version = 0 then
    ({ origin with
        session_version := d.origin.session_version
        session_id := d.origin.session_id },
      d)
  else
    let d := { d with origin := { d.origin with session_id := origin.session_id } }
    let origin := { origin with
      session_version := (origin.session_version + 1) % 2 ^ 64 }
    let d := { d with origin := { d.origin with
      session_version := (d.origin.session_version + 1) % 2 ^ 64 } }
    (origin, d)

/-- Accumulator of the matching loop of `generate_matched_sdp`
(server/session/mod.rs lines 134-181): collected sections, the
application-section-present flag, and the matched mid set (embedded as a
duplicate-free list). -/
structure MatchState where
  media_sections : List MediaSection
  already_have_application_media_section : Bool
  matched : List String
deriving DecidableEq, Repr

/-- One iteration of the matching loop of `generate_matched_sdp`
(server/session/mod.rs lines 138-180).  `sender.set_negotiated()` flags the
sender for later negotiation bookkeeping and is not observable in the
returned description, so it is not tracked here. -/
def matchStep (local_transceivers : List RTCRtpTransceiver)
    (include_unmatched : Bool) (st : MatchState) (media : MediaDescription) :
    Except String MatchState :=
  match get_mid_value media with
  | none => .ok st
  | some mid_value =>
    if mid_value = "" then
      .error "ErrPeerConnRemoteDescriptionWithoutMidValue"
    else if media.media_name.media = "application" then
      .ok { st with
        media_sections := st.media_sections ++
          [{ MediaSection.default with id := mid_value, data := true }]
        already_have_application_media_section := true }
    else
      let kind := RTPCodecType.from_string media.media_name.media
      let direction := get_peer_direction media
      if kind = .Unspecified ∨ direction = .Unspecified then .ok st
      else
        match local_transceivers.find? (fun t => t.mid = mid_value) with
        | some t =>
          .ok { st with
            matched := if st.matched.contains t.mid then st.matched
              else st.matched ++ [t.mid]
            media_sections := st.media_sections ++
              [{ id := mid_value
                 transceiver := some t
                 data := false
                 rid_map := get_rids media
                 offered_direction :=
                   if include_unmatched then none else some direction }] }
        | none => .error "ErrPeerConnTransceiverMidNil"

/-- Unmatched-transceiver block of `generate_matched_sdp`
(server/session/mod.rs lines 184-203), run only on the offer path. -/
def appendUnmatched (local_transceivers : List RTCRtpTransceiver)
    (st : MatchState) : MatchState :=
  let st := local_transceivers.foldl
    (fun st t =>
      if st.matched.contains t.mid then st
      else { st with
        media_sections := st.media_sections ++
          [{ MediaSection.default with id := t.mid, transceiver := some t }] })
    st
  if !st.already_have_application_media_section then
    { st with
      media_sections := st.media_sections ++
        [{ MediaSection.default with
            id := toString st.media_sections.length, data := true }] }
  else st

/-- `Session::generate_matched_sdp` (server/session/mod.rs lines 123-220).
The fresh JSEP description's crate-generated random origin is embedded as
the explicit `seed` parameter; `use_identity` only feeds that constructor
in the source and is likewise absorbed by `seed`. -/
def Session.generate_matched_sdp (s : Session) (seed : Origin)
    (remote_description : RTCSessionDescription)
    (local_ice_params : RTCIceParameters)
    (local_transceivers : List RTCRtpTransceiver)
    (include_unmatched : Bool) (connection_role : ConnectionRole) :
    Except String SessionDescription :=
  let d := SessionDescription.new_jsep_session_description seed
  let st0 : MatchState :=
    { media_sections := []
      already_have_application_media_section := false
      matched := [] }
  let stE :=
    match remote_description.parsed with
    | some parsed =>
      parsed.media_descriptions.foldlM (matchStep local_transceivers include_unmatched) st0
    | none => .ok st0
  match stE with
  | .error e => .error e
  | .ok st =>
    let st := if include_unmatched then appendUnmatched local_transceivers st else st
    match s.certificates.head? with
    | none => .error "ErrNonCertificate"
    | some cert =>
      populate_sdp d cert.get_fingerprints s.local_addr local_ice_params
        connection_role st.media_sections true

/-- Characterization (following the spec's words) of the sections whose
builder signals BUNDLE inclusion: data-channel sections always, and
transceiver-backed sections exactly when the transceiver has codecs; the
rejected (empty-codec) branch returns false.  Related to the builders by
the theorems below. -/
def sectionIncluded (m : MediaSection) : Bool :=
  m.data ||
    (match m.transceiver with
     | some t => !t.codecs.isEmpty
     | none => false)

/-- The space-separated mid tail the spec expects after "BUNDLE": one
leading space plus the mid of every included section, in encounter
order. -/
def bundleTail : List MediaSection → String
  | [] => ""
  | m :: rest => (if sectionIncluded m then " " ++ m.id else "") ++ bundleTail rest

/-- Observer: the attribute list of the last media description of a
successful section-builder result (the block the builder just
appended). -/
def lastMediaAttributes (r : Except String (SessionDescription × Bool)) : List Attribute :=
  match r with
  | .ok (d, _) => ((d.media_descriptions.getLast?).map (·.attributes)).getD []
  | .error _ => []

/-- Sample codec: opus with one feedback mechanism. -/
def exCodec : RTCRtpCodecParameters :=
  { capability :=
      { mime_type := "audio/opus"
        clock_rate := 48000
        channels := 2
        sdp_fmtp_line := ""
        rtcp_feedback := [{ typ := "nack", parameter := "pli" }] }
    payload_type := 111 }

/-- Sample ICE parameters. -/
def exIce : RTCIceParameters := { username_fragment := "uf", password := "pw" }

/-- Sample local socket address. -/
def exAddr : SocketAddr := { ip := "127.0.0.1", port := 4000 }

/-- Sample certificate with one fingerprint. -/
def exCert : RTCCertificate :=
  { fingerprints := [{ algorithm := "sha-256", value := "ab:cd" }] }

/-- Sample session with one certificate and no endpoints. -/
def exSession : Session :=
  { session_id := 1
    local_addr := exAddr
    certificates := [exCert]
    endpoints := [] }

/-- Sample sender with no outbound track. -/
def exSenderNoTrack : RTCRtpSender :=
  { track := none
    ssrc := 1234
    initial_track_id := none
    associated_media_stream_ids := ["s"] }

/-- Sample sender with track "t1" and no recorded initial track id. -/
def exSenderT1 : RTCRtpSender :=
  { track := some { id := "t1", stream_id := "s" }
    ssrc := 1234
    initial_track_id := none
    associated_media_stream_ids := ["s"] }

/-- The sender after its track is swapped to "t2"; since the source never
records `initial_track_id` (the assignment is a commented-out TODO), the
field is still none. -/
def exSenderT2 : RTCRtpSender :=
  { track := some { id := "t2", stream_id := "s" }
    ssrc := 1234
    initial_track_id := none
    associated_media_stream_ids := ["s"] }

/-- Sample audio transceiver with mid "0" and one codec. -/
def exTransceiver : RTCRtpTransceiver :=
  { mid := "0"
    sender := exSenderNoTrack
    receiver := { kind := .Audio }
    direction := .Recvonly
    current_direction := .Unspecified
    codecs := [exCodec]
    stopped := false
    kind := .Audio }

/-- Sample builder parameters: not the first section, answer path absent. -/
def exParams : AddTransceiverSdpParams :=
  { should_add_candidates := false
    mid_value := "0"
    dtls_role := .Passive
    ice_gathering_state := .Complete
    offered_direction := none }

/-- Remote application media description with mid "9". -/
def exRemoteApp : MediaDescription :=
  { media_name :=
      { media := "application"
        port := { value := 9, range := none }
        protos := ["UDP", "DTLS", "SCTP"]
        formats := ["webrtc-datachannel"] }
    media_title := none
    connection_information := none
    bandwidth := []
    encryption_key := none
    attributes := [{ key := "mid", value := some "9" }] }

/-- Remote audio media description with mid "7", direction sendrecv. -/
def exRemoteAudioMid7 : MediaDescription :=
  { media_name :=
      { media := "audio"
        port := { value := 9, range := none }
        protos := ["UDP", "TLS", "RTP", "SAVPF"]
        formats := [] }
    media_title := none
    connection_information := none
    bandwidth := []
    encryption_key := none
    attributes := [{ key := "mid", value := some "7" }, { key := "sendrecv", value := none }] }

/-- A remote media description carrying no mid attribute at all. -/
def exRemoteNoMid : MediaDescription :=
  { media_name :=
      { media := "audio"
        port := { value := 9, range := none }
        protos := ["UDP", "TLS", "RTP", "SAVPF"]
        formats := [] }
    media_title := none
    connection_information := none
    bandwidth := []
    encryption_key := none
    attributes := [{ key := "sendrecv", value := none }] }

/-- Wrap a parsed remote description. -/
def exRemote (medias : List MediaDescription) : RTCSessionDescription :=
  { sdp_type := .Offer
    sdp := ""
    parsed := some
      { origin := { session_id := 5, session_version := 2 }
        attributes := []
        media_descriptions := medias } }

/-- Sample four-tuple. -/
def exFourTuple : FourTuple :=
  { local_addr := { ip := "10.0.0.1", port := 1000 }
    peer_addr := { ip := "10.0.0.2", port := 2000 }
    protocol := "udp" }

/-- Empty session description (used as the accumulator fed to the section
builders). -/
def exEmptyDesc : SessionDescription :=
  { origin := { session_id := 0, session_version := 0 }
    attributes := []
    media_descriptions := [] }

/-- Transceiver whose sender currently advertises track "t1". -/
def exTransceiverT1 : RTCRtpTransceiver :=
  { exTransceiver with sender := exSenderT1 }

/-- The same transceiver after the track changed to "t2" (the source never
recorded the initial track id, so `initial_track_id` is still none). -/
def exTransceiverT2 : RTCRtpTransceiver :=
  { exTransceiver with sender := exSenderT2 }

/-- Media section backed by the track-"t1" transceiver. -/
def exSectionT1 : MediaSection :=
  { id := "0", transceiver := some exTransceiverT1, data := false, rid_map := [],
    offered_direction := none }

/-- Media section backed by the track-"t2" transceiver. -/
def exSectionT2 : MediaSection :=
  { id := "0", transceiver := some exTransceiverT2, data := false, rid_map := [],
    offered_direction := none }

/-- Transceiver with an empty codec list and no outbound track. -/
def exTransceiverEmptyCodecs : RTCRtpTransceiver :=
  { exTransceiver with codecs := [] }

/-- Media section backed by the codec-less transceiver. -/
def exSectionEmptyCodecs : MediaSection :=
  { id := "0", transceiver := some exTransceiverEmptyCodecs, data := false,
    rid_map := [], offered_direction := none }

/-- Data-channel media section with mid "1". -/
def exDataSection : MediaSection :=
  { id := "1", transceiver := none, data := true, rid_map := [],
    offered_direction := none }

/-- C8: over all direction pairs, `intersect` never yields send capability
unless both inputs have it, never yields receive capability unless both
inputs have it, and in particular Sendonly∩Recvonly = Inactive and
Recvonly∩Recvonly = Recvonly. -/
theorem intersect_never_grants_missing_capability :
    (∀ a b : RTCRtpTransceiverDirection,
        ((a.intersect b).has_send = true → a.has_send = true ∧ b.has_send = true) ∧
        ((a.intersect b).has_recv = true → a.has_recv = true ∧ b.has_recv = true)) ∧
    RTCRtpTransceiverDirection.Sendonly.intersect .Recvonly = .Inactive ∧
    RTCRtpTransceiverDirection.Recvonly.intersect .Recvonly = .Recvonly := by
  refine ⟨fun a b => ?_, by decide, by decide⟩
  cases a <;> cases b <;> decide

/-- Witness for C8: instantiating the capability-soundness direction at
Sendrecv∩Sendonly, whose result has send capability. -/
theorem intersect_never_grants_missing_capability_witness :
    RTCRtpTransceiverDirection.Sendrecv.has_send = true ∧
    RTCRtpTransceiverDirection.Sendonly.has_send = true :=
  (intersect_never_grants_missing_capability.1 .Sendrecv .Sendonly).1 (by decide)

/-- C2: at stored origin (id 1, version 5) and a description whose origin is
(id 7, version 9), `update_sdp_origin` overwrites the description's session
id with the stored one and bumps the stored version to 6, but sets the
description's emitted version to 10 (its own incoming version plus one), not
to the incremented stored value 6 that the claim requires. -/
theorem update_sdp_origin_emits_description_version_not_stored :
    update_sdp_origin { session_id := 1, session_version := 5 }
        { origin := { session_id := 7, session_version := 9 }
          attributes := []
          media_descriptions := [] }
      = ({ session_id := 1, session_version := 6 },
         { origin := { session_id := 1, session_version := 10 }
           attributes := []
           media_descriptions := [] })
    ∧ (10 : Nat) ≠ 6 := by
  exact ⟨by decide, by decide⟩

/-- C1: on a fresh session, `add_endpoint` returns "new" (false) and leaves
the session's endpoint map empty, so a second call with the same EndpointId
and four-tuple again returns "new" instead of "existing", and a lookup
after the first call finds nothing: the newly created Endpoint is never
registered in the Session's endpoint mapping. -/
theorem add_endpoint_never_registers_endpoint :
    (exSession.add_endpoint { endpoint_id := "alice" } exFourTuple).1 = false ∧
    ((exSession.add_endpoint { endpoint_id := "alice" } exFourTuple).2.1.add_endpoint
        { endpoint_id := "alice" } exFourTuple).1 = false ∧
    (exSession.add_endpoint { endpoint_id := "alice" } exFourTuple).2.1.get_endpoint
        "alice" = none ∧
    (exSession.add_endpoint { endpoint_id := "alice" } exFourTuple).2.1.endpoints = [] := by
  decide

/-- C4: `add_transceiver_sdp` advertises msid "t1" for a sender with track
"t1" and no recorded initial track id, but never records that id (the
assignment is commented out in the source), so after the track changes to
"t2" the next build advertises msid "t2" and no longer emits "t1" — the
one-way msid latch is never engaged by building a section. -/
theorem add_transceiver_sdp_msid_latch_never_engaged :
    (⟨"msid:s t1", none⟩ : Attribute) ∈ lastMediaAttributes
        (add_transceiver_sdp exEmptyDesc [] exIce exAddr exSectionT1 exParams) ∧
    (⟨"msid:s t2", none⟩ : Attribute) ∈ lastMediaAttributes
        (add_transceiver_sdp exEmptyDesc [] exIce exAddr exSectionT2 exParams) ∧
    (⟨"msid:s t1", none⟩ : Attribute) ∉ lastMediaAttributes
        (add_transceiver_sdp exEmptyDesc [] exIce exAddr exSectionT2 exParams) := by
  decide

/-- Appending an attribute preserves any satisfied `any` predicate. -/
theorem attributes_any_with_value {P : Attribute → Bool} (m : MediaDescription)
    (k v : String) (h : m.attributes.any P = true) :
    (m.with_value_attribute k v).attributes.any P = true := by
  simp [MediaDescription.with_value_attribute, List.any_append, h]

/-- Appending a property attribute preserves any satisfied `any`
predicate. -/
theorem attributes_any_with_property {P : Attribute → Bool} (m : MediaDescription)
    (k : String) (h : m.attributes.any P = true) :
    (m.with_property_attribute k).attributes.any P = true := by
  simp [MediaDescription.with_property_attribute, List.any_append, h]

/-- Zeta-reduced unfolding of `append_candidate_if_new`. -/
theorem append_candidate_if_new_eq (c : SocketAddr) (component : Nat)
    (m : MediaDescription) :
    append_candidate_if_new c component m =
      if m.attributes.any (fun a => a.value = some (marshalCandidate c component)) then m
      else m.with_value_attribute "candidate" (marshalCandidate c component) := rfl

/-- Zeta-reduced unfolding of `add_candidate_to_media_descriptions`. -/
theorem add_candidate_eq (c : SocketAddr) (m : MediaDescription)
    (st : RTCIceGatheringState) :
    add_candidate_to_media_descriptions c m st =
      (if st ≠ .Complete then append_candidate_if_new c 2 (append_candidate_if_new c 1 m)
       else if (append_candidate_if_new c 2 (append_candidate_if_new c 1 m)).attributes.any
           (fun a => a.key = "end-of-candidates") then
         append_candidate_if_new c 2 (append_candidate_if_new c 1 m)
       else (append_candidate_if_new c 2
          (append_candidate_if_new c 1 m)).with_property_attribute "end-of-candidates") := rfl

/-- After `append_candidate_if_new`, an attribute with the marshaled
candidate value for that component is present. -/
theorem append_candidate_if_new_contains (c : SocketAddr) (component : Nat)
    (m : MediaDescription) :
    ((append_candidate_if_new c component m).attributes.any
      (fun a => a.value = some (marshalCandidate c component))) = true := by
  rw [append_candidate_if_new_eq]
  split
  · assumption
  · simp [MediaDescription.with_value_attribute, List.any_append]

/-- `append_candidate_if_new` preserves any satisfied `any` predicate. -/
theorem append_candidate_if_new_preserves_any {P : Attribute → Bool}
    (c : SocketAddr) (component : Nat) (m : MediaDescription)
    (h : m.attributes.any P = true) :
    ((append_candidate_if_new c component m).attributes.any P) = true := by
  rw [append_candidate_if_new_eq]
  split
  · exact h
  · simp [MediaDescription.with_value_attribute, List.any_append, h]

/-- `add_candidate_to_media_descriptions` preserves any satisfied `any`
predicate. -/
theorem add_candidate_preserves_any {P : Attribute → Bool}
    (c : SocketAddr) (st : RTCIceGatheringState) (m : MediaDescription)
    (h : m.attributes.any P = true) :
    ((add_candidate_to_media_descriptions c m st).attributes.any P) = true := by
  rw [add_candidate_eq]
  have h1 := append_candidate_if_new_preserves_any (P := P) c 1 m h
  have h2 := append_candidate_if_new_preserves_any (P := P) c 2 _ h1
  split
  · exact h2
  · split
    · exact h2
    · simp [MediaDescription.with_property_attribute, List.any_append, h2]

/-- The output of `add_candidate_to_media_descriptions` contains the
marshaled candidate value for either component. -/
theorem add_candidate_contains_marshaled (c : SocketAddr)
    (st : RTCIceGatheringState) (m : MediaDescription) (component : Nat)
    (hc : component = 1 ∨ component = 2) :
    ((add_candidate_to_media_descriptions c m st).attributes.any
      (fun a => a.value = some (marshalCandidate c component))) = true := by
  rw [add_candidate_eq]
  have key : ((append_candidate_if_new c 2 (append_candidate_if_new c 1 m)).attributes.any
      (fun a => a.value = some (marshalCandidate c component))) = true := by
    rcases hc with h | h
    · subst h
      exact append_candidate_if_new_preserves_any c 2 _
        (append_candidate_if_new_contains c 1 m)
    · subst h
      exact append_candidate_if_new_contains c 2 _
  split
  · exact key
  · split
    · exact key
    · simp [MediaDescription.with_property_attribute, List.any_append, key]

/-- With gathering Complete, the output of
`add_candidate_to_media_descriptions` contains the end-of-candidates
property attribute. -/
theorem add_candidate_contains_eoc (c : SocketAddr) (m : MediaDescription) :
    ((add_candidate_to_media_descriptions c m .Complete).attributes.any
      (fun a => a.key = "end-of-candidates")) = true := by
  rw [add_candidate_eq]
  simp only [ne_eq, not_true_eq_false, if_false]
  split
  · assumption
  · simp [MediaDescription.with_property_attribute, List.any_append]

/-- C10: `add_candidate_to_media_descriptions` is idempotent: a second
application with the same candidate and gathering state changes nothing,
because candidate attribute values already present are never re-added and
the end-of-candidates marker is appended only when absent. -/
theorem add_candidate_to_media_descriptions_idempotent
    (c : SocketAddr) (st : RTCIceGatheringState) (m : MediaDescription) :
    add_candidate_to_media_descriptions c
        (add_candidate_to_media_descriptions c m st) st
      = add_candidate_to_media_descriptions c m st := by
  have hm1 := add_candidate_contains_marshaled c st m 1 (Or.inl rfl)
  have hm2 := add_candidate_contains_marshaled c st m 2 (Or.inr rfl)
  have e1 : append_candidate_if_new c 1 (add_candidate_to_media_descriptions c m st)
      = add_candidate_to_media_descriptions c m st := by
    rw [append_candidate_if_new_eq]
    simp [hm1]
  have e2 : append_candidate_if_new c 2 (add_candidate_to_media_descriptions c m st)
      = add_candidate_to_media_descriptions c m st := by
    rw [append_candidate_if_new_eq]
    simp [hm2]
  conv_lhs => rw [add_candidate_eq]
  rw [e1, e2]
  by_cases hst : st = RTCIceGatheringState.Complete
  · subst hst
    have heoc := add_candidate_contains_eoc c m
    simp [heoc]
  · simp [hst]

/-- C5: building a transceiver-backed section whose transceiver has no
codecs fails with the "sender with no codecs" error when the sender has an
outbound track (producing no media block), and otherwise appends a rejected
media block (same media kind, port 0, UDP/TLS/RTP/SAVPF, single format "0",
connection information) and signals exclusion from BUNDLE. -/
theorem add_transceiver_sdp_empty_codec_list
    (d : SessionDescription) (fps : List RTCDtlsFingerprint)
    (ice : RTCIceParameters) (cand : SocketAddr) (ms : MediaSection)
    (params : AddTransceiverSdpParams) (t : RTCRtpTransceiver)
    (ht : ms.transceiver = some t) (hc : t.codecs = []) :
    (t.sender.track.isSome = true →
      add_transceiver_sdp d fps ice cand ms params = .error "ErrSenderWithNoCodecs") ∧
    (t.sender.track = none →
      add_transceiver_sdp d fps ice cand ms params =
        .ok (d.with_media
          { media_name :=
              { media := t.kind.to_string
                port := { value := 0, range := none }
                protos := ["UDP", "TLS", "RTP", "SAVPF"]
                formats := ["0"] }
            media_title := none
            connection_information := some
              { network_type := "IN"
                address_type := "IP4"
                address := some { address := "0.0.0.0", ttl := none, range := none } }
            bandwidth := []
            encryption_key := none
            attributes := [] }, false)) := by
  constructor
  · intro htr
    unfold add_transceiver_sdp
    rw [ht]
    simp [hc, htr]
  · intro htr
    unfold add_transceiver_sdp
    rw [ht]
    simp [hc, htr, rejectedMediaDescription]

/-- Witness for C5: the concrete codec-less, track-less audio transceiver
yields the rejected port-0 block and the BUNDLE-exclusion flag. -/
theorem add_transceiver_sdp_empty_codec_list_witness :
    add_transceiver_sdp exEmptyDesc [] exIce exAddr exSectionEmptyCodecs exParams =
      .ok (exEmptyDesc.with_media
        { media_name :=
            { media := "audio"
              port := { value := 0, range := none }
              protos := ["UDP", "TLS", "RTP", "SAVPF"]
              formats := ["0"] }
          media_title := none
          connection_information := some
            { network_type := "IN"
              address_type := "IP4"
              address := some { address := "0.0.0.0", ttl := none, range := none } }
          bandwidth := []
          encryption_key := none
          attributes := [] }, false) :=
  (add_transceiver_sdp_empty_codec_list exEmptyDesc [] exIce exAddr
    exSectionEmptyCodecs exParams exTransceiverEmptyCodecs rfl rfl).2 rfl

/-- A media description without a mid value is a no-op for the matching
fold. -/
theorem foldlM_matchStep_skip (ts : List RTCRtpTransceiver) (inc : Bool)
    (m : MediaDescription) (hm : get_mid_value m = none)
    (l₁ l₂ : List MediaDescription) (st : MatchState) :
    (l₁ ++ m :: l₂).foldlM (matchStep ts inc) st
      = (l₁ ++ l₂).foldlM (matchStep ts inc) st := by
  have hstep : ∀ st' : MatchState, matchStep ts inc st' m = .ok st' := by
    intro st'
    unfold matchStep
    rw [hm]
  rw [List.foldlM_append, List.foldlM_append]
  apply congrArg
  funext st'
  rw [List.foldlM_cons, hstep st']
  rfl

/-- C9: a remote media description carrying no mid attribute is silently
skipped by `generate_matched_sdp`: the matching step leaves the accumulated
state (sections, application flag, matched set) untouched and raises no
error, and the overall result equals the result on the same remote
description with that section removed. -/
theorem generate_matched_sdp_skips_media_without_mid
    (s : Session) (seed : Origin) (ty : RTCSdpType) (sdp : String)
    (ice : RTCIceParameters) (ts : List RTCRtpTransceiver) (inc : Bool)
    (role : ConnectionRole) (p : SessionDescription)
    (l₁ l₂ : List MediaDescription) (m : MediaDescription)
    (hm : get_mid_value m = none) :
    (∀ st : MatchState, matchStep ts inc st m = .ok st) ∧
    s.generate_matched_sdp seed
        { sdp_type := ty, sdp := sdp
          parsed := some { p with media_descriptions := l₁ ++ m :: l₂ } }
        ice ts inc role
      = s.generate_matched_sdp seed
          { sdp_type := ty, sdp := sdp
            parsed := some { p with media_descriptions := l₁ ++ l₂ } }
          ice ts inc role := by
  refine ⟨fun st' => by unfold matchStep; rw [hm], ?_⟩
  unfold Session.generate_matched_sdp
  dsimp only
  rw [foldlM_matchStep_skip ts inc m hm l₁ l₂]

/-- Witness for C9: dropping the mid-less audio section after an
application section changes nothing. -/
theorem generate_matched_sdp_skips_media_without_mid_witness :
    get_mid_value exRemoteNoMid = none ∧
    exSession.generate_matched_sdp { session_id := 5, session_version := 2 }
        { sdp_type := .Offer, sdp := ""
          parsed := some
            { exEmptyDesc with media_descriptions := [exRemoteApp] ++ exRemoteNoMid :: [] } }
        exIce [] false .Passive
      = exSession.generate_matched_sdp { session_id := 5, session_version := 2 }
          { sdp_type := .Offer, sdp := ""
            parsed := some
              { exEmptyDesc with media_descriptions := [exRemoteApp] ++ [] } }
          exIce [] false .Passive :=
  ⟨by decide,
    (generate_matched_sdp_skips_media_without_mid exSession
      { session_id := 5, session_version := 2 } .Offer "" exIce [] false .Passive
      exEmptyDesc [exRemoteApp] [] exRemoteNoMid (by decide)).2⟩

/-- The only error the matching step can raise on a media description whose
mid value is not present-but-empty is the unmatched-mid error. -/
theorem matchStep_error_is_unmatched_mid (ts : List RTCRtpTransceiver)
    (inc : Bool) (st : MatchState) (media : MediaDescription) (e : String)
    (hne : get_mid_value media ≠ some "")
    (h : matchStep ts inc st media = .error e) :
    e = "ErrPeerConnTransceiverMidNil" := by
  unfold matchStep at h
  cases hmv : get_mid_value media <;> rw [hmv] at h
  · exact absurd h (by simp)
  · rename_i mid
    dsimp only at h
    by_cases h1 : mid = ""
    · exact absurd (h1 ▸ hmv) hne
    · rw [if_neg h1] at h
      by_cases h2 : media.media_name.media = "application"
      · rw [if_pos h2] at h
        exact absurd h (by simp)
      · rw [if_neg h2] at h
        by_cases h3 : RTPCodecType.from_string media.media_name.media = .Unspecified ∨
            get_peer_direction media = .Unspecified
        · rw [if_pos h3] at h
          exact absurd h (by simp)
        · rw [if_neg h3] at h
          cases hf : ts.find? (fun t => t.mid = mid) <;> rw [hf] at h
          · exact (Except.error.injEq _ _ ▸ h).symm
          · exact absurd h (by simp)

/-- A remaining (non-application, kind- and direction-specified) section
whose mid has no local transceiver counterpart makes the matching step
fail with the unmatched-mid error. -/
theorem matchStep_unmatched_mid (ts : List RTCRtpTransceiver) (inc : Bool)
    (st : MatchState) (media : MediaDescription) (mid : String)
    (hmv : get_mid_value media = some mid) (hne : mid ≠ "")
    (happ : media.media_name.media ≠ "application")
    (hkind : RTPCodecType.from_string media.media_name.media ≠ .Unspecified)
    (hdir : get_peer_direction media ≠ .Unspecified)
    (hfind : ∀ t ∈ ts, t.mid ≠ mid) :
    matchStep ts inc st media = .error "ErrPeerConnTransceiverMidNil" := by
  unfold matchStep
  rw [hmv]
  dsimp only
  rw [if_neg hne, if_neg happ, if_neg (by push_neg; exact ⟨hkind, hdir⟩)]
  rw [List.find?_eq_none.mpr (fun t ht => by simpa using hfind t ht)]

/-- When every media description avoids the present-but-empty mid and some
remaining section has an unmatched mid, the matching fold fails with the
unmatched-mid error. -/
theorem foldlM_matchStep_unmatched (ts : List RTCRtpTransceiver) (inc : Bool) :
    ∀ (l : List MediaDescription) (st : MatchState),
    (∀ media ∈ l, get_mid_value media ≠ some "") →
    (∃ media ∈ l, ∃ mid, get_mid_value media = some mid ∧ mid ≠ "" ∧
      media.media_name.media ≠ "application" ∧
      RTPCodecType.from_string media.media_name.media ≠ .Unspecified ∧
      get_peer_direction media ≠ .Unspecified ∧
      ∀ t ∈ ts, t.mid ≠ mid) →
    l.foldlM (matchStep ts inc) st = .error "ErrPeerConnTransceiverMidNil"
  | [], _, _, hex => absurd hex (by simp)
  | m :: rest, st, hne, hex => by
    rw [List.foldlM_cons]
    cases hstep : matchStep ts inc st m with
    | error e =>
      have he := matchStep_error_is_unmatched_mid ts inc st m e
        (hne m (List.mem_cons_self m rest)) hstep
      subst he
      rfl
    | ok st' =>
      have hrest : ∃ media ∈ rest, ∃ mid, get_mid_value media = some mid ∧ mid ≠ "" ∧
          media.media_name.media ≠ "application" ∧
          RTPCodecType.from_string media.media_name.media ≠ .Unspecified ∧
          get_peer_direction media ≠ .Unspecified ∧
          ∀ t ∈ ts, t.mid ≠ mid := by
        obtain ⟨media, hmem, mid, hmv, hne', happ, hkind, hdir, hfind⟩ := hex
        rcases List.mem_cons.mp hmem with hm | hm
        · subst hm
          exact absurd hstep (by
            rw [matchStep_unmatched_mid ts inc st media mid hmv hne' happ hkind hdir hfind]
            simp)
        · exact ⟨media, hm, mid, hmv, hne', happ, hkind, hdir, hfind⟩
      have := foldlM_matchStep_unmatched ts inc rest st'
        (fun media hm => hne media (List.mem_cons_of_mem m hm)) hrest
      simpa using this

/-- Counterexample to C6 as stated: the remote description consists of a
single application section with mid "9" and there is no local transceiver
with mid "9", yet `generate_matched_sdp` with include_unmatched=false
succeeds (application sections are matched without a transceiver), so it
neither fails with the unmatched-mid error nor withholds an output
description. -/
theorem generate_matched_sdp_unmatched_mid_counterexample :
    get_mid_value exRemoteApp = some "9" ∧
    (exSession.generate_matched_sdp { session_id := 5, session_version := 2 }
        (exRemote [exRemoteApp]) exIce [] false .Passive).isOk = true := by
  decide

/-- C6 amended: if the parsed remote description has no present-but-empty
mid, and it contains a media section with a non-empty mid that is neither
an application section nor skipped (its codec kind and peer direction are
both specified) and whose mid no local transceiver carries, then
`generate_matched_sdp` with include_unmatched=false fails with the
unmatched-mid error and produces no output description. -/
theorem generate_matched_sdp_unmatched_mid_error (s : Session) (seed : Origin)
    (rd : RTCSessionDescription) (ice : RTCIceParameters)
    (ts : List RTCRtpTransceiver) (role : ConnectionRole)
    (p : SessionDescription) (hp : rd.parsed = some p)
    (hne : ∀ media ∈ p.media_descriptions, get_mid_value media ≠ some "")
    (hex : ∃ media ∈ p.media_descriptions, ∃ mid,
      get_mid_value media = some mid ∧ mid ≠ "" ∧
      media.media_name.media ≠ "application" ∧
      RTPCodecType.from_string media.media_name.media ≠ .Unspecified ∧
      get_peer_direction media ≠ .Unspecified ∧
      ∀ t ∈ ts, t.mid ≠ mid) :
    s.generate_matched_sdp seed rd ice ts false role
      = .error "ErrPeerConnTransceiverMidNil" := by
  unfold Session.generate_matched_sdp
  rw [hp]
  dsimp only
  rw [foldlM_matchStep_unmatched ts false p.media_descriptions _ hne hex]

/-- Witness for C6 amended: a lone sendrecv audio section with mid "7" and
no local transceivers. -/
theorem generate_matched_sdp_unmatched_mid_error_witness :
    exSession.generate_matched_sdp { session_id := 5, session_version := 2 }
        (exRemote [exRemoteAudioMid7]) exIce [] false .Passive
      = .error "ErrPeerConnTransceiverMidNil" :=
  generate_matched_sdp_unmatched_mid_error exSession
    { session_id := 5, session_version := 2 } (exRemote [exRemoteAudioMid7])
    exIce [] .Passive
    { origin := { session_id := 5, session_version := 2 }
      attributes := []
      media_descriptions := [exRemoteAudioMid7] }
    rfl (by decide)
    ⟨exRemoteAudioMid7, by decide, "7", by decide, by decide, by decide,
      by decide, by decide, by decide⟩

/-- Round trip of the direction string mapping. -/
theorem direction_from_string_to_string (d : RTCRtpTransceiverDirection) :
    RTCRtpTransceiverDirection.from_string d.to_string = d := by
  cases d <;> decide

/-- A key starting with "ssrc:" never parses as a direction. -/
theorem from_string_ssrc_append (x : String) :
    RTCRtpTransceiverDirection.from_string ("ssrc:" ++ x) = .Unspecified := by
  unfold RTCRtpTransceiverDirection.from_string
  split_ifs with h1 h2 h3 h4
  · have h' := congrArg String.data h1
    rw [String.data_append] at h'
    simp at h'
  · have h' := congrArg String.data h2
    rw [String.data_append] at h'
    simp at h'
  · have h' := congrArg String.data h3
    rw [String.data_append] at h'
    simp at h'
  · have h' := congrArg String.data h4
    rw [String.data_append] at h'
    simp at h'
  · rfl

/-- A key starting with "msid:" never parses as a direction. -/
theorem from_string_msid_append (x : String) :
    RTCRtpTransceiverDirection.from_string ("msid:" ++ x) = .Unspecified := by
  unfold RTCRtpTransceiverDirection.from_string
  split_ifs with h1 h2 h3 h4
  · have h' := congrArg String.data h1
    rw [String.data_append] at h'
    simp at h'
  · have h' := congrArg String.data h2
    rw [String.data_append] at h'
    simp at h'
  · have h' := congrArg String.data h3
    rw [String.data_append] at h'
    simp at h'
  · have h' := congrArg String.data h4
    rw [String.data_append] at h'
    simp at h'
  · rfl

/-- A key starting with "ssrc:" is never "candidate". -/
theorem ssrc_append_ne_candidate (x : String) : ("ssrc:" ++ x) ≠ "candidate" := by
  intro h
  have h' := congrArg String.data h
  rw [String.data_append] at h'
  simp at h'

/-- A key starting with "msid:" is never "candidate". -/
theorem msid_append_ne_candidate (x : String) : ("msid:" ++ x) ≠ "candidate" := by
  intro h
  have h' := congrArg String.data h
  rw [String.data_append] at h'
  simp at h'

/-- A key starting with "ssrc:" is never "end-of-candidates". -/
theorem ssrc_append_ne_eoc (x : String) : ("ssrc:" ++ x) ≠ "end-of-candidates" := by
  intro h
  have h' := congrArg String.data h
  rw [String.data_append] at h'
  simp at h'

/-- A key starting with "msid:" is never "end-of-candidates". -/
theorem msid_append_ne_eoc (x : String) : ("msid:" ++ x) ≠ "end-of-candidates" := by
  intro h
  have h' := congrArg String.data h
  rw [String.data_append] at h'
  simp at h'

/-- On an attribute list that splits around one attribute, with no
direction-parsing key on either side, the direction search returns that
attribute's parse. -/
theorem find_dir_value_of_split :
    ∀ (l₁ : List Attribute) (a : Attribute) (l₂ : List Attribute),
    (∀ b ∈ l₁, RTCRtpTransceiverDirection.from_string b.key = .Unspecified) →
    (∀ b ∈ l₂, RTCRtpTransceiverDirection.from_string b.key = .Unspecified) →
    (match (l₁ ++ a :: l₂).find?
        (fun b => RTCRtpTransceiverDirection.from_string b.key ≠ .Unspecified) with
     | some b => RTCRtpTransceiverDirection.from_string b.key
     | none => RTCRtpTransceiverDirection.Unspecified)
      = RTCRtpTransceiverDirection.from_string a.key
  | [], a, l₂, _, h₂ => by
    rw [List.nil_append, List.find?_cons]
    by_cases hd : RTCRtpTransceiverDirection.from_string a.key = .Unspecified
    · have ha : decide (RTCRtpTransceiverDirection.from_string a.key ≠ .Unspecified)
          = false := by simp [hd]
      rw [ha]
      have hnone : l₂.find?
          (fun b => decide (RTCRtpTransceiverDirection.from_string b.key ≠ .Unspecified))
          = none :=
        List.find?_eq_none.mpr (fun b hb => by simp [h₂ b hb])
      show (match l₂.find?
          (fun b => decide (RTCRtpTransceiverDirection.from_string b.key ≠ .Unspecified)) with
        | some b => RTCRtpTransceiverDirection.from_string b.key
        | none => RTCRtpTransceiverDirection.Unspecified)
          = RTCRtpTransceiverDirection.from_string a.key
      rw [hnone, hd]
    · have ha : decide (RTCRtpTransceiverDirection.from_string a.key ≠ .Unspecified)
          = true := by simp [hd]
      rw [ha]
  | b :: bs, a, l₂, h₁, h₂ => by
    rw [List.cons_append, List.find?_cons]
    have hb : decide (RTCRtpTransceiverDirection.from_string b.key ≠ .Unspecified)
        = false := by simp [h₁ b (List.mem_cons_self b bs)]
    rw [hb]
    exact find_dir_value_of_split bs a l₂
      (fun b' hb' => h₁ b' (List.mem_cons_of_mem b hb')) h₂

/-- `get_peer_direction` on a media description whose attribute list splits
around one attribute, with no direction-parsing key on either side, returns
that attribute's parse. -/
theorem get_peer_direction_of_split (m : MediaDescription)
    (l₁ l₂ : List Attribute) (a : Attribute)
    (hm : m.attributes = l₁ ++ a :: l₂)
    (h₁ : ∀ b ∈ l₁, RTCRtpTransceiverDirection.from_string b.key = .Unspecified)
    (h₂ : ∀ b ∈ l₂, RTCRtpTransceiverDirection.from_string b.key = .Unspecified) :
    get_peer_direction m = RTCRtpTransceiverDirection.from_string a.key := by
  unfold get_peer_direction
  rw [hm]
  exact find_dir_value_of_split l₁ a l₂ h₁ h₂

/-- Membership in the attributes after appending a valued attribute. -/
theorem mem_attributes_with_value (m : MediaDescription) (k v : String) (b : Attribute) :
    b ∈ (m.with_value_attribute k v).attributes ↔
      b ∈ m.attributes ∨ b = { key := k, value := some v } := by
  simp [MediaDescription.with_value_attribute]

/-- Membership in the attributes after appending a property attribute. -/
theorem mem_attributes_with_property (m : MediaDescription) (k : String) (b : Attribute) :
    b ∈ (m.with_property_attribute k).attributes ↔
      b ∈ m.attributes ∨ b = { key := k, value := none } := by
  simp [MediaDescription.with_property_attribute]

/-- Provenance of `with_codec` attribute keys. -/
theorem with_codec_key_provenance (m : MediaDescription) (pt : Nat)
    (name : String) (cr ch : Nat) (fmtp : String) (b : Attribute)
    (hb : b ∈ (m.with_codec pt name cr ch fmtp).attributes) :
    b ∈ m.attributes ∨ b.key = "rtpmap" ∨ b.key = "fmtp" := by
  by_cases hf : fmtp = ""
  · simp [MediaDescription.with_codec, MediaDescription.with_value_attribute, hf] at hb
    rcases hb with hb | hb
    · exact Or.inl hb
    · right; left; rw [hb]
  · simp [MediaDescription.with_codec, MediaDescription.with_value_attribute, hf] at hb
    rcases hb with hb | hb | hb
    · exact Or.inl hb
    · right; left; rw [hb]
    · right; right; rw [hb]

/-- Provenance of the per-codec feedback fold attribute keys. -/
theorem feedback_fold_key_provenance (codec : RTCRtpCodecParameters) :
    ∀ (fbs : List RTCPFeedback) (m : MediaDescription) (b : Attribute),
    b ∈ (fbs.foldl (fun media feedback => media.with_value_attribute "rtcp-fb"
        (toString codec.payload_type ++ " " ++ feedback.typ ++ " " ++ feedback.parameter))
        m).attributes →
    b ∈ m.attributes ∨ b.key = "rtcp-fb"
  | [], _, _, hb => Or.inl hb
  | fb :: fbs, m, b, hb => by
    rw [List.foldl_cons] at hb
    rcases feedback_fold_key_provenance codec fbs _ b hb with h | h
    · rcases (mem_attributes_with_value _ _ _ _).mp h with h' | h'
      · exact Or.inl h'
      · right; rw [h']
    · exact Or.inr h

/-- Provenance of the codec-loop attribute keys. -/
theorem withTransceiverCodecs_key_provenance :
    ∀ (codecs : List RTCRtpCodecParameters) (m : MediaDescription) (b : Attribute),
    b ∈ (withTransceiverCodecs m codecs).attributes →
    b ∈ m.attributes ∨ b.key = "rtpmap" ∨ b.key = "fmtp" ∨ b.key = "rtcp-fb"
  | [], _, _, hb => Or.inl hb
  | c :: cs, m, b, hb => by
    have hb' : b ∈ (withTransceiverCodecs
        (c.capability.rtcp_feedback.foldl
          (fun media feedback => media.with_value_attribute "rtcp-fb"
            (toString c.payload_type ++ " " ++ feedback.typ ++ " " ++ feedback.parameter))
          (m.with_codec c.payload_type
            ((c.capability.mime_type.trim_start_matches "audio/").trim_start_matches "video/")
            c.capability.clock_rate c.capability.channels c.capability.sdp_fmtp_line))
        cs).attributes := hb
    rcases withTransceiverCodecs_key_provenance cs _ b hb' with h | h
    · rcases feedback_fold_key_provenance c _ _ b h with h' | h'
      · rcases with_codec_key_provenance _ _ _ _ _ _ b h' with h'' | h'' | h''
        · exact Or.inl h''
        · exact Or.inr (Or.inl h'')
        · exact Or.inr (Or.inr (Or.inl h''))
      · exact Or.inr (Or.inr (Or.inr h'))
    · rcases h with h | h | h
      · exact Or.inr (Or.inl h)
      · exact Or.inr (Or.inr (Or.inl h))
      · exact Or.inr (Or.inr (Or.inr h))

/-- Provenance of the rid fold attribute keys. -/
theorem rid_fold_key_provenance :
    ∀ (keys : List String) (m : MediaDescription) (b : Attribute),
    b ∈ (keys.foldl
        (fun media rid => media.with_value_attribute "rid" (rid ++ " recv")) m).attributes →
    b ∈ m.attributes ∨ b.key = "rid"
  | [], _, _, hb => Or.inl hb
  | k :: ks, m, b, hb => by
    rw [List.foldl_cons] at hb
    rcases rid_fold_key_provenance ks _ b hb with h | h
    · rcases (mem_attributes_with_value _ _ _ _).mp h with h' | h'
      · exact Or.inl h'
      · right; rw [h']
    · exact Or.inr h

/-- Provenance of the simulcast block attribute keys. -/
theorem withRidAttributes_key_provenance (m : MediaDescription)
    (rid_map : List (String × String)) (b : Attribute)
    (hb : b ∈ (withRidAttributes m rid_map).attributes) :
    b ∈ m.attributes ∨ b.key = "rid" ∨ b.key = "simulcast" := by
  unfold withRidAttributes at hb
  by_cases hr : rid_map.isEmpty
  · rw [if_neg (by simp [hr])] at hb
    exact Or.inl hb
  · rw [if_pos (by simp [hr])] at hb
    rcases (mem_attributes_with_value _ _ _ _).mp hb with hb' | hb'
    · rcases rid_fold_key_provenance (rid_map.map (·.1)) m b hb' with h | h
      · exact Or.inl h
      · exact Or.inr (Or.inl h)
    · right; right; rw [hb']

/-- Provenance of the `with_media_source` attribute keys: all four are
"ssrc:"-prefixed. -/
theorem with_media_source_key_provenance (m : MediaDescription) (ssrc : Nat)
    (cname stream_label label : String) (b : Attribute)
    (hb : b ∈ (m.with_media_source ssrc cname stream_label label).attributes) :
    b ∈ m.attributes ∨ ∃ x, b.key = "ssrc:" ++ x := by
  unfold MediaDescription.with_media_source at hb
  rcases (mem_attributes_with_property _ _ _).mp hb with hb | hb
  rotate_left
  · refine Or.inr ⟨toString ssrc ++ " label:" ++ label, ?_⟩
    rw [hb]
    simp [String.append_assoc]
  rcases (mem_attributes_with_property _ _ _).mp hb with hb | hb
  rotate_left
  · refine Or.inr ⟨toString ssrc ++ " mslabel:" ++ stream_label, ?_⟩
    rw [hb]
    simp [String.append_assoc]
  rcases (mem_attributes_with_property _ _ _).mp hb with hb | hb
  rotate_left
  · refine Or.inr ⟨toString ssrc ++ " msid:" ++ stream_label ++ " " ++ label, ?_⟩
    rw [hb]
    simp [String.append_assoc]
  rcases (mem_attributes_with_property _ _ _).mp hb with hb | hb
  · exact Or.inl hb
  · refine Or.inr ⟨toString ssrc ++ " cname:" ++ cname, ?_⟩
    rw [hb]
    simp [String.append_assoc]

/-- Provenance of the msid property fold attribute keys: all are
"msid:"-prefixed. -/
theorem msid_fold_key_provenance (tid : String) :
    ∀ (ids : List String) (m : MediaDescription) (b : Attribute),
    b ∈ (ids.foldl (fun media stream_id =>
        media.with_property_attribute ("msid:" ++ stream_id ++ " " ++ tid)) m).attributes →
    b ∈ m.attributes ∨ ∃ x, b.key = "msid:" ++ x
  | [], _, _, hb => Or.inl hb
  | i :: is, m, b, hb => by
    rw [List.foldl_cons] at hb
    rcases msid_fold_key_provenance tid is _ b hb with h | h
    · rcases (mem_attributes_with_property _ _ _).mp h with h' | h'
      · exact Or.inl h'
      · refine Or.inr ⟨i ++ " " ++ tid, ?_⟩
        rw [h']
        simp [String.append_assoc]
    · exact Or.inr h

/-- Unfolding of `withSenderMsid` for a sender with no track and no
recorded initial track id. -/
theorem withSenderMsid_none_none (m : MediaDescription) (ssrc : Nat)
    (ids : List String) :
    withSenderMsid m
      { track := none, ssrc := ssrc, initial_track_id := none,
        associated_media_stream_ids := ids } = m := rfl

/-- Unfolding of `withSenderMsid` for a sender with no track and a recorded
initial track id. -/
theorem withSenderMsid_none_some (m : MediaDescription) (ssrc : Nat)
    (tid : String) (ids : List String) :
    withSenderMsid m
      { track := none, ssrc := ssrc, initial_track_id := some tid,
        associated_media_stream_ids := ids }
      = ids.foldl (fun media stream_id =>
          media.with_property_attribute ("msid:" ++ stream_id ++ " " ++ tid)) m := rfl

/-- Unfolding of `withSenderMsid` for a sender with a track and no recorded
initial track id. -/
theorem withSenderMsid_some_none (m : MediaDescription) (track : TrackLocal)
    (ssrc : Nat) (ids : List String) :
    withSenderMsid m
      { track := some track, ssrc := ssrc, initial_track_id := none,
        associated_media_stream_ids := ids }
      = ids.foldl (fun media stream_id =>
          media.with_property_attribute ("msid:" ++ stream_id ++ " " ++ track.id))
          (m.with_media_source ssrc track.stream_id track.stream_id track.id) := rfl

/-- Unfolding of `withSenderMsid` for a sender with a track and a recorded
initial track id. -/
theorem withSenderMsid_some_some (m : MediaDescription) (track : TrackLocal)
    (ssrc : Nat) (tid : String) (ids : List String) :
    withSenderMsid m
      { track := some track, ssrc := ssrc, initial_track_id := some tid,
        associated_media_stream_ids := ids }
      = ids.foldl (fun media stream_id =>
          media.with_property_attribute ("msid:" ++ stream_id ++ " " ++ tid))
          (m.with_media_source ssrc track.stream_id track.stream_id track.id) := rfl

/-- Provenance of the sender msid block attribute keys. -/
theorem withSenderMsid_key_provenance (m : MediaDescription)
    (sender : RTCRtpSender) (b : Attribute)
    (hb : b ∈ (withSenderMsid m sender).attributes) :
    b ∈ m.attributes ∨ (∃ x, b.key = "ssrc:" ++ x) ∨ (∃ x, b.key = "msid:" ++ x) := by
  obtain ⟨tr, ss, itid, ids⟩ := sender
  cases tr with
  | none =>
    cases itid with
    | none =>
      rw [withSenderMsid_none_none] at hb
      exact Or.inl hb
    | some tid =>
      rw [withSenderMsid_none_some] at hb
      rcases msid_fold_key_provenance tid _ _ b hb with h | h
      · exact Or.inl h
      · exact Or.inr (Or.inr h)
  | some track =>
    cases itid with
    | none =>
      rw [withSenderMsid_some_none] at hb
      rcases msid_fold_key_provenance track.id _ _ b hb with h | h
      · rcases with_media_source_key_provenance _ _ _ _ _ b h with h' | h'
        · exact Or.inl h'
        · exact Or.inr (Or.inl h')
      · exact Or.inr (Or.inr h)
    | some tid =>
      rw [withSenderMsid_some_some] at hb
      rcases msid_fold_key_provenance tid _ _ b hb with h | h
      · rcases with_media_source_key_provenance _ _ _ _ _ b h with h' | h'
        · exact Or.inl h'
        · exact Or.inr (Or.inl h')
      · exact Or.inr (Or.inr h)


/-- Combined facts about every attribute key present before the direction
attribute in a transceiver-backed section: none parses as a direction, and
none is a candidate marker. -/
theorem transceiverPreMedia_key_facts (ice : RTCIceParameters)
    (ms : MediaSection) (t : RTCRtpTransceiver)
    (params : AddTransceiverSdpParams) (b : Attribute)
    (hb : b ∈ (transceiverPreMedia ice ms t params).attributes) :
    RTCRtpTransceiverDirection.from_string b.key = .Unspecified ∧
    b.key ≠ "candidate" ∧ b.key ≠ "end-of-candidates" := by
  unfold transceiverPreMedia at hb
  rcases withSenderMsid_key_provenance _ _ b hb with h | ⟨x, hx⟩ | ⟨x, hx⟩
  · rcases withRidAttributes_key_provenance _ _ b h with h | h | h
    · rcases withTransceiverCodecs_key_provenance t.codecs _ b h with h | h | h | h
      · rw [show (transceiverBaseMedia t.kind.to_string params.dtls_role.to_string
            params.mid_value ice.username_fragment ice.password).attributes
            = [{ key := "setup", value := some params.dtls_role.to_string },
               { key := "mid", value := some params.mid_value },
               { key := "ice-ufrag", value := some ice.username_fragment },
               { key := "ice-pwd", value := some ice.password },
               { key := "rtcp-mux", value := none },
               { key := "rtcp-rsize", value := none }]
            from rfl] at h
        simp only [List.mem_cons, List.not_mem_nil, or_false] at h
        have hk : b.key ∈ ["setup", "mid", "ice-ufrag", "ice-pwd",
            "rtcp-mux", "rtcp-rsize"] := by
          rcases h with h | h | h | h | h | h <;> rw [h] <;> simp
        simp only [List.mem_cons, List.not_mem_nil, or_false] at hk
        rcases hk with hk | hk | hk | hk | hk | hk <;> rw [hk] <;>
          exact ⟨by decide, by decide, by decide⟩
      · rw [h]; exact ⟨by decide, by decide, by decide⟩
      · rw [h]; exact ⟨by decide, by decide, by decide⟩
      · rw [h]; exact ⟨by decide, by decide, by decide⟩
    · rw [h]; exact ⟨by decide, by decide, by decide⟩
    · rw [h]; exact ⟨by decide, by decide, by decide⟩
  · rw [hx]
    exact ⟨from_string_ssrc_append x, ssrc_append_ne_candidate x, ssrc_append_ne_eoc x⟩
  · rw [hx]
    exact ⟨from_string_msid_append x, msid_append_ne_candidate x, msid_append_ne_eoc x⟩

/-- The fingerprint fold only appends "fingerprint"-keyed attributes. -/
theorem fingerprint_fold_attributes :
    ∀ (fps : List RTCDtlsFingerprint) (m : MediaDescription),
    ∃ suf, (fps.foldl
        (fun media f => media.with_fingerprint f.algorithm f.value.toUpper) m).attributes
        = m.attributes ++ suf ∧ ∀ b ∈ suf, b.key = "fingerprint"
  | [], m => ⟨[], by simp, by simp⟩
  | f :: fps, m => by
    obtain ⟨suf, he, hk⟩ := fingerprint_fold_attributes fps
      (m.with_fingerprint f.algorithm f.value.toUpper)
    refine ⟨{ key := "fingerprint"
              value := some (f.algorithm ++ " " ++ f.value.toUpper) } :: suf, ?_, ?_⟩
    · rw [List.foldl_cons, he]
      simp [MediaDescription.with_fingerprint, MediaDescription.with_value_attribute]
    · intro b hb
      rcases List.mem_cons.mp hb with h | h
      · rw [h]
      · exact hk b h

/-- `append_candidate_if_new` only appends "candidate"-keyed attributes. -/
theorem append_candidate_if_new_attributes (c : SocketAddr) (component : Nat)
    (m : MediaDescription) :
    ∃ suf, (append_candidate_if_new c component m).attributes = m.attributes ++ suf ∧
      ∀ b ∈ suf, b.key = "candidate" := by
  rw [append_candidate_if_new_eq]
  split
  · exact ⟨[], by simp, by simp⟩
  · refine ⟨[{ key := "candidate", value := some (marshalCandidate c component) }], ?_, ?_⟩
    · simp [MediaDescription.with_value_attribute]
    · simp

/-- `add_candidate_to_media_descriptions` only appends candidate and
end-of-candidates attributes. -/
theorem add_candidate_attributes (c : SocketAddr) (st : RTCIceGatheringState)
    (m : MediaDescription) :
    ∃ suf, (add_candidate_to_media_descriptions c m st).attributes
        = m.attributes ++ suf ∧
      ∀ b ∈ suf, b.key = "candidate" ∨ b.key = "end-of-candidates" := by
  obtain ⟨s1, e1, k1⟩ := append_candidate_if_new_attributes c 1 m
  obtain ⟨s2, e2, k2⟩ := append_candidate_if_new_attributes c 2
    (append_candidate_if_new c 1 m)
  have hcomb : (append_candidate_if_new c 2
      (append_candidate_if_new c 1 m)).attributes = m.attributes ++ (s1 ++ s2) := by
    rw [e2, e1, List.append_assoc]
  have hkeys : ∀ b ∈ s1 ++ s2, b.key = "candidate" ∨ b.key = "end-of-candidates" := by
    intro b hb
    rcases List.mem_append.mp hb with h | h
    · exact Or.inl (k1 b h)
    · exact Or.inl (k2 b h)
  rw [add_candidate_eq]
  split
  · exact ⟨s1 ++ s2, hcomb, hkeys⟩
  · split
    · exact ⟨s1 ++ s2, hcomb, hkeys⟩
    · refine ⟨s1 ++ s2 ++ [{ key := "end-of-candidates", value := none }], ?_, ?_⟩
      · simp only [MediaDescription.with_property_attribute, hcomb, List.append_assoc]
      · intro b hb
        rcases List.mem_append.mp hb with h | h
        · exact hkeys b h
        · right
          simp at h
          rw [h]

/-- Zeta-reduced unfolding of `transceiverSectionMedia`. -/
theorem transceiverSectionMedia_eq (fps : List RTCDtlsFingerprint)
    (ice : RTCIceParameters) (cand : SocketAddr) (ms : MediaSection)
    (t : RTCRtpTransceiver) (params : AddTransceiverSdpParams) :
    transceiverSectionMedia fps ice cand ms t params =
      (if params.should_add_candidates then
        add_candidate_to_media_descriptions cand
          (fps.foldl (fun media f => media.with_fingerprint f.algorithm f.value.toUpper)
            ((transceiverPreMedia ice ms t params).with_property_attribute
              (resolveDirection params.offered_direction t.direction).to_string))
          params.ice_gathering_state
      else
        fps.foldl (fun media f => media.with_fingerprint f.algorithm f.value.toUpper)
          ((transceiverPreMedia ice ms t params).with_property_attribute
            (resolveDirection params.offered_direction t.direction).to_string)) := rfl

/-- The attribute list of a transceiver-backed section splits around the
direction attribute: everything before is direction-free and
candidate-free, everything after is fingerprint or candidate material (and
only fingerprints when candidates were not requested). -/
theorem transceiverSectionMedia_attributes_split (fps : List RTCDtlsFingerprint)
    (ice : RTCIceParameters) (cand : SocketAddr) (ms : MediaSection)
    (t : RTCRtpTransceiver) (params : AddTransceiverSdpParams) :
    ∃ l₁ l₂,
      (transceiverSectionMedia fps ice cand ms t params).attributes
        = l₁ ++ (⟨(resolveDirection params.offered_direction t.direction).to_string,
            none⟩ : Attribute) :: l₂ ∧
      (∀ b ∈ l₁, RTCRtpTransceiverDirection.from_string b.key = .Unspecified ∧
        b.key ≠ "candidate" ∧ b.key ≠ "end-of-candidates") ∧
      (∀ b ∈ l₂, b.key = "fingerprint" ∨ b.key = "candidate" ∨
        b.key = "end-of-candidates") ∧
      (params.should_add_candidates = false → ∀ b ∈ l₂, b.key = "fingerprint") := by
  rw [transceiverSectionMedia_eq]
  obtain ⟨suf₁, he₁, hk₁⟩ := fingerprint_fold_attributes fps
    ((transceiverPreMedia ice ms t params).with_property_attribute
      (resolveDirection params.offered_direction t.direction).to_string)
  have hprop : ((transceiverPreMedia ice ms t params).with_property_attribute
      (resolveDirection params.offered_direction t.direction).to_string).attributes
      = (transceiverPreMedia ice ms t params).attributes ++
        [⟨(resolveDirection params.offered_direction t.direction).to_string, none⟩] := rfl
  rw [hprop] at he₁
  split
  · rename_i hflag
    obtain ⟨suf₂, he₂, hk₂⟩ := add_candidate_attributes cand params.ice_gathering_state
      (fps.foldl (fun media f => media.with_fingerprint f.algorithm f.value.toUpper)
        ((transceiverPreMedia ice ms t params).with_property_attribute
          (resolveDirection params.offered_direction t.direction).to_string))
    refine ⟨(transceiverPreMedia ice ms t params).attributes, suf₁ ++ suf₂, ?_, ?_, ?_, ?_⟩
    · rw [he₂, he₁]
      simp [List.append_assoc]
    · exact fun b hb => transceiverPreMedia_key_facts ice ms t params b hb
    · intro b hb
      rcases List.mem_append.mp hb with h | h
      · exact Or.inl (hk₁ b h)
      · exact Or.inr (hk₂ b h)
    · intro hff
      rw [hff] at hflag
      cases hflag
  · refine ⟨(transceiverPreMedia ice ms t params).attributes, suf₁, ?_, ?_, ?_, ?_⟩
    · rw [he₁]
      simp [List.append_assoc]
    · exact fun b hb => transceiverPreMedia_key_facts ice ms t params b hb
    · exact fun b hb => Or.inl (hk₁ b hb)
    · exact fun _ b hb => hk₁ b hb

/-- C3: for a transceiver-backed section with a non-empty codec list,
`add_transceiver_sdp` succeeds and the direction attribute it emits (read
back with `get_peer_direction`) is: intersect(reverse(offered),
transceiver.direction) when the offered direction is Sendonly or Recvonly;
the transceiver's direction when the offered direction is Sendrecv or
Unspecified; Inactive when the offered direction is Inactive; and the
transceiver's direction verbatim when no direction was offered. -/
theorem add_transceiver_sdp_direction_resolution (d : SessionDescription)
    (fps : List RTCDtlsFingerprint) (ice : RTCIceParameters)
    (cand : SocketAddr) (ms : MediaSection) (params : AddTransceiverSdpParams)
    (t : RTCRtpTransceiver) (ht : ms.transceiver = some t)
    (hc : t.codecs ≠ []) :
    ∃ media, add_transceiver_sdp d fps ice cand ms params
        = .ok (d.with_media media, true) ∧
      get_peer_direction media =
        (match params.offered_direction with
         | some .Sendonly => RTCRtpTransceiverDirection.Sendonly.reverse.intersect t.direction
         | some .Recvonly => RTCRtpTransceiverDirection.Recvonly.reverse.intersect t.direction
         | some .Sendrecv => t.direction
         | some .Unspecified => t.direction
         | some .Inactive => .Inactive
         | none => t.direction) := by
  refine ⟨transceiverSectionMedia fps ice cand ms t params, ?_, ?_⟩
  · unfold add_transceiver_sdp
    rw [ht]
    dsimp only
    rw [if_neg (by simp [List.isEmpty_iff, hc])]
  · obtain ⟨l₁, l₂, he, h₁, h₂, _⟩ :=
      transceiverSectionMedia_attributes_split fps ice cand ms t params
    have hg := get_peer_direction_of_split
      (transceiverSectionMedia fps ice cand ms t params) l₁ l₂
      ⟨(resolveDirection params.offered_direction t.direction).to_string, none⟩
      he (fun b hb => (h₁ b hb).1)
      (fun b hb => by rcases h₂ b hb with h | h | h <;> rw [h] <;> decide)
    rw [hg]
    have hrt := direction_from_string_to_string
      (resolveDirection params.offered_direction t.direction)
    rw [show (⟨(resolveDirection params.offered_direction t.direction).to_string,
        none⟩ : Attribute).key
        = (resolveDirection params.offered_direction t.direction).to_string from rfl]
    rw [hrt]
    cases ho : params.offered_direction with
    | none => rfl
    | some o => cases o <;> rfl

/-- Witness for C3: offered Sendonly against a Recvonly transceiver yields
reverse(Sendonly)∩Recvonly = Recvonly in the emitted section. -/
theorem add_transceiver_sdp_direction_resolution_witness :
    ∃ media, add_transceiver_sdp exEmptyDesc [] exIce exAddr exSectionT1
        { exParams with offered_direction := some .Sendonly }
        = .ok (exEmptyDesc.with_media media, true) ∧
      get_peer_direction media
        = RTCRtpTransceiverDirection.Sendonly.reverse.intersect .Recvonly :=
  add_transceiver_sdp_direction_resolution exEmptyDesc [] exIce exAddr
    exSectionT1 { exParams with offered_direction := some .Sendonly }
    exTransceiverT1 rfl (by decide)

/-- Direction strings are never candidate markers. -/
theorem dir_to_string_ne_candidate_markers (d : RTCRtpTransceiverDirection) :
    d.to_string ≠ "candidate" ∧ d.to_string ≠ "end-of-candidates" := by
  cases d <;> exact ⟨by decide, by decide⟩

/-- Without the first-section candidate flag, a transceiver-backed section
carries no candidate attributes. -/
theorem transceiverSectionMedia_no_candidates (fps : List RTCDtlsFingerprint)
    (ice : RTCIceParameters) (cand : SocketAddr) (ms : MediaSection)
    (t : RTCRtpTransceiver) (params : AddTransceiverSdpParams)
    (hflag : params.should_add_candidates = false) :
    ∀ a ∈ (transceiverSectionMedia fps ice cand ms t params).attributes,
      a.key ≠ "candidate" := by
  obtain ⟨l₁, l₂, he, h₁, _, hfp⟩ :=
    transceiverSectionMedia_attributes_split fps ice cand ms t params
  intro a ha
  rw [he] at ha
  rcases List.mem_append.mp ha with h | h
  · exact (h₁ a h).2.1
  · rcases List.mem_cons.mp h with h | h
    · rw [h]
      exact (dir_to_string_ne_candidate_markers _).1
    · rw [hfp hflag a h]
      decide

/-- Without the first-section candidate flag, the data-channel section
carries no candidate attributes. -/
theorem dataSectionMedia_no_candidates (fps : List RTCDtlsFingerprint)
    (cand : SocketAddr) (params : AddDataMediaSectionParams)
    (hflag : params.should_add_candidates = false) :
    ∀ a ∈ (dataSectionMedia fps cand params).attributes, a.key ≠ "candidate" := by
  have heq : dataSectionMedia fps cand params
      = fps.foldl (fun media f => media.with_fingerprint f.algorithm f.value.toUpper)
        (dataBaseMedia params.mid_value params.dtls_role params.ice_params) := by
    unfold dataSectionMedia
    rw [hflag]
    simp
  rw [heq]
  obtain ⟨suf, he, hk⟩ := fingerprint_fold_attributes fps
    (dataBaseMedia params.mid_value params.dtls_role params.ice_params)
  intro a ha
  rw [he] at ha
  rcases List.mem_append.mp ha with h | h
  · rw [show (dataBaseMedia params.mid_value params.dtls_role
        params.ice_params).attributes
        = [{ key := "setup", value := some params.dtls_role.to_string },
           { key := "mid", value := some params.mid_value },
           { key := "sendrecv", value := none },
           { key := "sctp-port", value := some "5000" },
           { key := "max-message-size", value := some "262144" },
           { key := "ice-ufrag", value := some params.ice_params.username_fragment },
           { key := "ice-pwd", value := some params.ice_params.password }]
        from rfl] at h
    simp only [List.mem_cons, List.not_mem_nil, or_false] at h
    have hk' : a.key ∈ ["setup", "mid", "sendrecv", "sctp-port",
        "max-message-size", "ice-ufrag", "ice-pwd"] := by
      rcases h with h | h | h | h | h | h | h <;> rw [h] <;> simp
    simp only [List.mem_cons, List.not_mem_nil, or_false] at hk'
    rcases hk' with h' | h' | h' | h' | h' | h' | h' <;> rw [h'] <;> decide
  · rw [hk a h]
    decide

/-- Successful `add_transceiver_sdp` results: there is a transceiver, the
session attributes are untouched, and the result is either the rejected
block (BUNDLE-excluded) or the full section (BUNDLE-included). -/
theorem add_transceiver_sdp_ok_cases (d : SessionDescription)
    (fps : List RTCDtlsFingerprint) (ice : RTCIceParameters) (cand : SocketAddr)
    (ms : MediaSection) (params : AddTransceiverSdpParams)
    (d' : SessionDescription) (inc : Bool)
    (h : add_transceiver_sdp d fps ice cand ms params = .ok (d', inc)) :
    ∃ t, ms.transceiver = some t ∧
      ((t.codecs.isEmpty = true ∧ inc = false ∧
        d' = d.with_media (rejectedMediaDescription t.kind)) ∨
       (t.codecs.isEmpty = false ∧ inc = true ∧
        d' = d.with_media (transceiverSectionMedia fps ice cand ms t params))) := by
  unfold add_transceiver_sdp at h
  cases hms : ms.transceiver with
  | none =>
    rw [hms] at h
    exact absurd h (by simp)
  | some t =>
    rw [hms] at h
    dsimp only at h
    refine ⟨t, rfl, ?_⟩
    by_cases hce : t.codecs.isEmpty = true
    · rw [if_pos hce] at h
      by_cases htr : t.sender.track.isSome = true
      · rw [if_pos htr] at h
        exact absurd h (by simp)
      · rw [if_neg htr] at h
        left
        have hpair := Except.ok.inj h
        exact ⟨hce, (congrArg Prod.snd hpair).symm, (congrArg Prod.fst hpair).symm⟩
    · rw [if_neg hce] at h
      right
      have hpair := Except.ok.inj h
      exact ⟨by simpa using hce, (congrArg Prod.snd hpair).symm,
        (congrArg Prod.fst hpair).symm⟩

/-- The session-level fingerprint fold appends only "fingerprint"-keyed
session attributes and leaves the media list untouched. -/
theorem session_fingerprint_fold_facts :
    ∀ (fps : List RTCDtlsFingerprint) (d : SessionDescription),
    ∃ suf, (fps.foldl
        (fun d f => d.with_fingerprint f.algorithm f.value.toUpper) d).attributes
        = d.attributes ++ suf ∧ (∀ b ∈ suf, b.key = "fingerprint") ∧
      (fps.foldl
        (fun d f => d.with_fingerprint f.algorithm f.value.toUpper) d).media_descriptions
        = d.media_descriptions
  | [], d => ⟨[], by simp, by simp, rfl⟩
  | f :: fps, d => by
    obtain ⟨suf, he, hk, hm⟩ := session_fingerprint_fold_facts fps
      (d.with_fingerprint f.algorithm f.value.toUpper)
    refine ⟨(⟨"fingerprint", some (f.algorithm ++ " " ++ f.value.toUpper)⟩ : Attribute)
        :: suf, ?_, ?_, ?_⟩
    · rw [List.foldl_cons, he]
      simp [SessionDescription.with_fingerprint, SessionDescription.with_value_attribute]
    · intro b hb
      rcases List.mem_cons.mp hb with h | h
      · rw [h]
      · exact hk b h
    · rw [List.foldl_cons, hm]
      rfl

/-- Induction workhorse for the per-section loop of `populate_sdp`: on
success, no section was a data/transceiver contradiction, the BUNDLE value
grew by exactly the included mids in order, session attributes are
untouched, and the appended media blocks carry candidate attributes only
when built from the section at absolute index 0. -/
theorem populateLoop_ok_facts (fps : List RTCDtlsFingerprint) (cand : SocketAddr)
    (ice : RTCIceParameters) (role : ConnectionRole) :
    ∀ (sections : List MediaSection) (d : SessionDescription) (bundle : String)
      (i count : Nat) (out : SessionDescription × String × Nat),
    populateLoop fps cand ice role sections d bundle i count = .ok out →
    (∀ m ∈ sections, ¬(m.data = true ∧ m.transceiver.isSome = true)) ∧
    out.2.1 = bundle ++ bundleTail sections ∧
    out.1.attributes = d.attributes ∧
    ∃ built : List MediaDescription,
      out.1.media_descriptions = d.media_descriptions ++ built ∧
      (∀ me ∈ (if i = 0 then built.drop 1 else built),
        ∀ a ∈ me.attributes, a.key ≠ "candidate")
  | [], d, bundle, i, count, out, h => by
    have hout : out = (d, bundle, count) := (Except.ok.inj h).symm
    subst hout
    refine ⟨by simp, ?_, rfl, ⟨[], by simp, by simp⟩⟩
    simp [bundleTail, String.append_empty]
  | m :: rest, d, bundle, i, count, out, h => by
    unfold populateLoop at h
    dsimp only at h
    by_cases hbad : m.data = true ∧ m.transceiver.isSome = true
    · rw [if_pos hbad] at h
      exact absurd h (by simp)
    · rw [if_neg hbad] at h
      by_cases hdata : m.data = true
      · rw [if_pos hdata] at h
        obtain ⟨ihw, ihb, iha, built, ihm, ihc⟩ :=
          populateLoop_ok_facts fps cand ice role rest _ _ _ _ _ h
        have hinc : sectionIncluded m = true := by simp [sectionIncluded, hdata]
        refine ⟨?_, ?_, ?_, ?_⟩
        · intro m' hm'
          rcases List.mem_cons.mp hm' with hm' | hm'
          · rw [hm']; exact hbad
          · exact ihw m' hm'
        · rw [ihb, bundleTail]
          rw [if_pos hinc]
          simp [String.append_assoc]
        · rw [iha]
          rfl
        · refine ⟨dataSectionMedia fps cand
            { should_add_candidates := decide (i = 0)
              mid_value := m.id
              ice_params := ice
              dtls_role := role
              ice_gathering_state := .Complete } :: built, ?_, ?_⟩
          · rw [ihm]
            simp [add_data_media_section, SessionDescription.with_media]
          · by_cases hi : i = 0
            · rw [if_pos hi]
              rw [if_neg (by simp)] at ihc
              simpa using ihc
            · rw [if_neg hi]
              intro me hme
              rcases List.mem_cons.mp hme with hme | hme
              · rw [hme]
                exact dataSectionMedia_no_candidates fps cand _ (by simp [hi])
              · rw [if_neg (by simp)] at ihc
                exact ihc me hme
      · rw [if_neg hdata] at h
        split at h
        · exact absurd h (by simp)
        · rename_i d1 inc heq
          obtain ⟨t, hms, hcases⟩ :=
            add_transceiver_sdp_ok_cases d fps ice cand m _ d1 inc heq
          by_cases hincb : inc = true
          · rw [if_pos hincb] at h
            obtain ⟨ihw, ihb, iha, built, ihm, ihc⟩ :=
              populateLoop_ok_facts fps cand ice role rest _ _ _ _ _ h
            rcases hcases with ⟨_, hfalse, _⟩ | ⟨hce, _, hd1⟩
            · rw [hincb] at hfalse; cases hfalse
            have hinc : sectionIncluded m = true := by
              simp [sectionIncluded, hms, hce]
            refine ⟨?_, ?_, ?_, ?_⟩
            · intro m' hm'
              rcases List.mem_cons.mp hm' with hm' | hm'
              · rw [hm']; exact hbad
              · exact ihw m' hm'
            · rw [ihb, bundleTail]
              rw [if_pos hinc]
              simp [String.append_assoc]
            · rw [iha, hd1]
              rfl
            · refine ⟨transceiverSectionMedia fps ice cand m t
                { should_add_candidates := decide (i = 0)
                  mid_value := m.id
                  dtls_role := role
                  ice_gathering_state := .Complete
                  offered_direction := m.offered_direction } :: built, ?_, ?_⟩
              · rw [ihm, hd1]
                simp [SessionDescription.with_media]
              · by_cases hi : i = 0
                · rw [if_pos hi]
                  rw [if_neg (by simp)] at ihc
                  simpa using ihc
                · rw [if_neg hi]
                  intro me hme
                  rcases List.mem_cons.mp hme with hme | hme
                  · rw [hme]
                    exact transceiverSectionMedia_no_candidates fps ice cand m t _
                      (by simp [hi])
                  · rw [if_neg (by simp)] at ihc
                    exact ihc me hme
          · rw [if_neg hincb] at h
            obtain ⟨ihw, ihb, iha, built, ihm, ihc⟩ :=
              populateLoop_ok_facts fps cand ice role rest _ _ _ _ _ h
            rcases hcases with ⟨hce, _, hd1⟩ | ⟨_, htrue, _⟩
            · have hninc : sectionIncluded m = false := by
                simp [sectionIncluded, hdata, hms, hce]
              refine ⟨?_, ?_, ?_, ?_⟩
              · intro m' hm'
                rcases List.mem_cons.mp hm' with hm' | hm'
                · rw [hm']; exact hbad
                · exact ihw m' hm'
              · rw [ihb, bundleTail]
                rw [if_neg (by simp [hninc])]
                rw [String.empty_append]
              · rw [iha, hd1]
                rfl
              · refine ⟨rejectedMediaDescription t.kind :: built, ?_, ?_⟩
                · rw [ihm, hd1]
                  simp [SessionDescription.with_media]
                · by_cases hi : i = 0
                  · rw [if_pos hi]
                    rw [if_neg (by simp)] at ihc
                    simpa using ihc
                  · rw [if_neg hi]
                    intro me hme
                    rcases List.mem_cons.mp hme with hme | hme
                    · rw [hme]
                      intro a ha
                      simp [rejectedMediaDescription] at ha
                    · rw [if_neg (by simp)] at ihc
                      exact ihc me hme
            · rw [htrue] at hincb
              exact absurd rfl hincb

/-- C7: when `populate_sdp` accepts a section list (so no section was a
data-channel section carrying a transceiver — a fatal contradiction
otherwise) and the incoming description has no group attribute, the result
carries the ice-lite property attribute, exactly one group attribute whose
value is "BUNDLE" followed by the space-separated mids of exactly the
sections whose builder signaled inclusion in encounter order, and candidate
attributes appear in no media block other than the one built for the
section at index 0. -/
theorem populate_sdp_properties (d : SessionDescription)
    (fps : List RTCDtlsFingerprint) (cand : SocketAddr) (ice : RTCIceParameters)
    (role : ConnectionRole) (sections : List MediaSection) (mdf : Bool)
    (d' : SessionDescription)
    (hok : populate_sdp d fps cand ice role sections mdf = .ok d')
    (hg : ∀ a ∈ d.attributes, a.key ≠ "group") :
    (∀ m ∈ sections, ¬(m.data = true ∧ m.transceiver.isSome = true)) ∧
    (⟨"ice-lite", none⟩ : Attribute) ∈ d'.attributes ∧
    d'.attributes.filter (fun a => a.key = "group")
      = [⟨"group", some ("BUNDLE" ++ bundleTail sections)⟩] ∧
    (∀ me ∈ d'.media_descriptions.drop (d.media_descriptions.length + 1),
      ∀ a ∈ me.attributes, a.key ≠ "candidate") := by
  unfold populate_sdp at hok
  dsimp only at hok
  split at hok
  · exact absurd hok (by simp)
  · rename_i dL bundle cnt heq
    obtain ⟨hwf, hbundle, hattrs, built, hmedia, hcand⟩ :=
      populateLoop_ok_facts (if mdf = true then fps else []) cand ice role
        sections d "BUNDLE" 0 0 (dL, bundle, cnt) heq
    dsimp only at hbundle hattrs hmedia
    have hd' := Except.ok.inj hok
    have hfin : ∃ suf, d'.attributes
        = dL.attributes ++ suf ++ [⟨"ice-lite", none⟩] ++ [⟨"group", some bundle⟩] ∧
        (∀ b ∈ suf, b.key = "fingerprint") ∧
        d'.media_descriptions = dL.media_descriptions := by
      rw [← hd']
      split
      · obtain ⟨suf, ha, hb, hc⟩ := session_fingerprint_fold_facts fps dL
        refine ⟨suf, ?_, hb, ?_⟩
        · show ((fps.foldl (fun d f => d.with_fingerprint f.algorithm f.value.toUpper)
              dL).attributes ++ [⟨"ice-lite", none⟩]) ++ [⟨"group", some bundle⟩] = _
          rw [ha]
        · show (fps.foldl (fun d f => d.with_fingerprint f.algorithm f.value.toUpper)
              dL).media_descriptions = dL.media_descriptions
          exact hc
      · refine ⟨[], ?_, by simp, rfl⟩
        show (dL.attributes ++ [⟨"ice-lite", none⟩]) ++ [⟨"group", some bundle⟩] = _
        rw [List.append_nil]
    obtain ⟨suf2, hattr', hm2, hmedia'⟩ := hfin
    refine ⟨hwf, ?_, ?_, ?_⟩
    · rw [hattr']
      simp
    · rw [hattr', hbundle]
      rw [List.filter_append, List.filter_append, List.filter_append]
      rw [List.filter_eq_nil_iff.mpr (fun a ha => by simp [hg a (hattrs ▸ ha)])]
      rw [List.filter_eq_nil_iff.mpr (fun a ha => by simp [hm2 a ha])]
      simp
    · rw [hmedia', hmedia]
      intro me hme
      rw [List.drop_append] at hme
      rw [if_pos rfl] at hcand
      exact hcand me hme

/-- Witness for C7: one data section (mid "1") followed by one
transceiver-backed audio section (mid "0"); the output carries ice-lite and
the group attribute "BUNDLE 1 0". -/
theorem populate_sdp_properties_witness :
    ∃ d', populate_sdp exEmptyDesc exCert.fingerprints exAddr exIce .Passive
        [exDataSection, exSectionT1] true = .ok d' ∧
      (⟨"ice-lite", none⟩ : Attribute) ∈ d'.attributes ∧
      d'.attributes.filter (fun a => a.key = "group")
        = [⟨"group", some ("BUNDLE" ++ bundleTail [exDataSection, exSectionT1])⟩] := by
  cases hok : populate_sdp exEmptyDesc exCert.fingerprints exAddr exIce .Passive
      [exDataSection, exSectionT1] true with
  | error e =>
    have hisok : (populate_sdp exEmptyDesc exCert.fingerprints exAddr exIce .Passive
        [exDataSection, exSectionT1] true).isOk = true := by decide
    rw [hok] at hisok
    cases hisok
  | ok d' =>
    have hfacts := populate_sdp_properties exEmptyDesc exCert.fingerprints exAddr
      exIce .Passive [exDataSection, exSectionT1] true d' hok (by decide)
    exact ⟨d', rfl, hfacts.2.1, hfacts.2.2.1⟩
